import Mathlib

/-!
Boden: scroll-view layout helper, UWP window core, web UI provider, string
data.

A shallow embedding of the parts of the Boden UI toolkit that the layout and
core-bridging contracts are about, followed by the theorems that settle them.

Lengths are device-independent pixels (DIPs).  The source stores them in
`double`; the embedding uses exact numbers (`Nat` where the data model says a
length is non-negative, `Int` where a sign is possible).  Nothing proved below
depends on floating-point rounding.
-/

deriving instance DecidableEq for Except

namespace bdn

/-! ## Geometry primitives -/

/-- A concrete size: both components are known, non-negative DIP counts. -/
structure Size where
  width : Nat
  height : Nat
deriving DecidableEq, Repr

/-- A size in which either component may be the "none" sentinel, meaning
that the axis is unconstrained.  This is the shape of every `availableSpace`
argument. -/
structure AvailableSpace where
  width : Option Nat
  height : Option Nat
deriving DecidableEq, Repr

/-- The value `Size::none()`: unconstrained on both axes. -/
def Size.none : AvailableSpace := ⟨Option.none, Option.none⟩

/-- A rectangle: a position and a non-negative extent. -/
structure Rect where
  x : Int
  y : Int
  width : Nat
  height : Nat
deriving DecidableEq, Repr

/-! ## Views -/

/-- A content view, as far as layout is concerned: its preferred-size
function, a pure function of the space it is offered. -/
structure View where
  calcPreferredSize : AvailableSpace → Size

/-- A scroll view: which axes may scroll, and the content view, if any. -/
structure ScrollView where
  horizontalScrollingEnabled : Bool
  verticalScrollingEnabled : Bool
  contentView : Option View

/-! ## ScrollViewLayoutHelper -/

/-- The layout helper.  `vertBarWidth` and `horzBarHeight` are fixed at
construction (`ScrollViewLayoutHelper(13, 7)` has a vertical bar 13 wide and a
horizontal bar 7 high); the other five fields are the result of the last
layout pass. -/
structure ScrollViewLayoutHelper where
  vertBarWidth : Nat
  horzBarHeight : Nat
  horizontalScrollBarVisible : Bool
  verticalScrollBarVisible : Bool
  contentViewBounds : Rect
  scrolledAreaSize : Size
  viewPortSize : Size
deriving DecidableEq, Repr

namespace ScrollViewLayoutHelper

/-- The constructor `ScrollViewLayoutHelper(vertBarWidth, horzBarHeight)`:
no layout has been computed yet. -/
def new (vertBarWidth horzBarHeight : Nat) : ScrollViewLayoutHelper :=
  { vertBarWidth := vertBarWidth
    horzBarHeight := horzBarHeight
    horizontalScrollBarVisible := false
    verticalScrollBarVisible := false
    contentViewBounds := ⟨0, 0, 0, 0⟩
    scrolledAreaSize := ⟨0, 0⟩
    viewPortSize := ⟨0, 0⟩ }

/-- The content view a call is about: absent when the scroll view pointer is
null and when the scroll view has no content view. -/
def contentOf (scrollView : Option ScrollView) : Option (ScrollView × View) :=
  match scrollView with
  | Option.none => Option.none
  | some sv =>
    match sv.contentView with
    | Option.none => Option.none
    | some c => some (sv, c)

/-- The space offered to the content view (algorithm step 1): unconstrained
along every axis that may scroll, and the given extent along every axis that
may not. -/
def contentSpace (sv : ScrollView) (width height : Option Nat) : AvailableSpace :=
  { width := if sv.horizontalScrollingEnabled then Option.none else width
    height := if sv.verticalScrollingEnabled then Option.none else height }

/-- Modelled from the spec: `ScrollViewLayoutHelper::calcPreferredSize`, whose
implementation file is missing (only its test is present).  An absent content
view yields `Size(0, 0)`.  For a present one the spec only says that the
result is the scroll view's ideal outer size; the model takes the content
view's preferred size in the space of step 1. -/
def calcPreferredSize (_self : ScrollViewLayoutHelper) (scrollView : Option ScrollView)
    (availableSpace : AvailableSpace) : Size :=
  match contentOf scrollView with
  | Option.none => ⟨0, 0⟩
  | some (sv, c) =>
    c.calcPreferredSize (contentSpace sv availableSpace.width availableSpace.height)

/-- Modelled from the spec: step 1 of the layout algorithm, the "natural"
scrolled-area size.  The content view is asked for its preferred size,
unconstrained along the axes that may scroll; along an axis that may not
scroll the viewport constrains the content, which is clamped to it. -/
def naturalSize (sv : ScrollView) (c : View) (viewPortSize : Size) : Size :=
  let pref := c.calcPreferredSize
    (contentSpace sv (some viewPortSize.width) (some viewPortSize.height))
  { width := if sv.horizontalScrollingEnabled then pref.width
             else min pref.width viewPortSize.width
    height := if sv.verticalScrollingEnabled then pref.height
              else min pref.height viewPortSize.height }

/-- Width left for the content when the vertical bar has the given
visibility. -/
def availWidth (self : ScrollViewLayoutHelper) (viewPortSize : Size) (vertVisible : Bool) : Nat :=
  viewPortSize.width - (if vertVisible then self.vertBarWidth else 0)

/-- Height left for the content when the horizontal bar has the given
visibility. -/
def availHeight (self : ScrollViewLayoutHelper) (viewPortSize : Size) (horzVisible : Bool) : Nat :=
  viewPortSize.height - (if horzVisible then self.horzBarHeight else 0)

/-- Modelled from the spec: steps 2 and 3, one round of the visibility
iteration on the pair (horizontal visible, vertical visible).  An axis
overflows when scrolling is enabled on it and the natural size exceeds the
space left by the other axis's bar; an overflowing axis is marked visible. -/
def visibilityPass (self : ScrollViewLayoutHelper) (sv : ScrollView) (natural viewPortSize : Size)
    (vis : Bool × Bool) : Bool × Bool :=
  (vis.1 || (sv.horizontalScrollingEnabled &&
              decide (availWidth self viewPortSize vis.2 < natural.width)),
   vis.2 || (sv.verticalScrollingEnabled &&
              decide (availHeight self viewPortSize vis.1 < natural.height)))

/-- Modelled from the spec: step 4, repeat the round until the visibility
pair no longer changes.  `fuel` bounds the number of rounds; `none` means the
bound was reached before the pair was stable. -/
def stabilize (step : Bool × Bool → Bool × Bool) : Nat → Bool × Bool → Option (Bool × Bool)
  | 0, _ => Option.none
  | fuel + 1, vis =>
    if step vis = vis then some vis else stabilize step fuel (step vis)

/-- Modelled from the spec: `ScrollViewLayoutHelper::calcLayout`, whose
implementation file is missing (only its test is present).  Every result
field is recomputed.  Without a content view the content area is the whole
viewport and no bar is shown.  Otherwise the visibility pair is iterated from
(hidden, hidden) to a stable pair (steps 2 to 4), `contentViewBounds` is the
viewport reduced by the thickness of each visible bar, at the origin (step 5),
and `scrolledAreaSize` is the natural size (step 6).  The result is `none`
only if `fuel` rounds did not reach a stable pair. -/
def calcLayout (fuel : Nat) (self : ScrollViewLayoutHelper) (scrollView : Option ScrollView)
    (viewPortSize : Size) : Option ScrollViewLayoutHelper :=
  match contentOf scrollView with
  | Option.none =>
    some { self with
      horizontalScrollBarVisible := false
      verticalScrollBarVisible := false
      contentViewBounds := ⟨0, 0, viewPortSize.width, viewPortSize.height⟩
      scrolledAreaSize := viewPortSize
      viewPortSize := viewPortSize }
  | some (sv, c) =>
    let natural := naturalSize sv c viewPortSize
    match stabilize (visibilityPass self sv natural viewPortSize) fuel (false, false) with
    | Option.none => Option.none
    | some vis =>
      some { self with
        horizontalScrollBarVisible := vis.1
        verticalScrollBarVisible := vis.2
        contentViewBounds :=
          ⟨0, 0, availWidth self viewPortSize vis.2, availHeight self viewPortSize vis.1⟩
        scrolledAreaSize := natural
        viewPortSize := viewPortSize }

end ScrollViewLayoutHelper


/-! ## Failures -/

/-- What a native UWP call can raise: `Platform::DisconnectedException`, or
any other platform exception (identified by its result code). -/
inductive PlatformException where
  | DisconnectedException
  | other (hresult : Int)
deriving DecidableEq, Repr

/-- The failures that cross the boundary of a core.  `NativeError` is a
native fault after translation into the toolkit's own error kind; it records
the fault it was translated from. -/
inductive Error where
  | InvalidArgumentError (message : String)
  | NotImplementedError (message : String)
  | ViewCoreTypeNotSupportedError (coreTypeName : String)
  | NativeError (cause : PlatformException)
deriving DecidableEq, Repr

/-- The constructor of `NotImplementedError`: the message is the function
name after the text "Not implemented: ". -/
def NotImplementedError.new (funcName : String) : Error :=
  Error.NotImplementedError ("Not implemented: " ++ funcName)

/-! ## UiLength -/

/-- The unit of a `UiLength`.  `UiLength::Unit` is an enumeration with the
four enumerators none, dip, em and sem; `other raw` stands for an object of
the enumeration type holding a value `raw` that is none of the four. -/
inductive UiLength.Unit where
  | none
  | dip
  | em
  | sem
  | other (raw : Int)
deriving DecidableEq, Repr

/-- An abstract length: a number and its unit. -/
structure UiLength where
  unit : UiLength.Unit
  value : Int
deriving DecidableEq, Repr

/-- The rounding directions of `adjustBounds`. -/
inductive RoundType where
  | nearest
  | up
  | down
deriving DecidableEq, Repr

namespace winuwp

/-- Modelled from the spec: the macro pair `BDN_WINUWP_TO_STDEXC_BEGIN` /
`BDN_WINUWP_TO_STDEXC_END`, whose definition is missing.  A native fault that
reaches the end of the function body is translated into the toolkit's own
error kind, so that no native error type leaves the core. -/
def toStdExc (e : PlatformException) : Error :=
  Error.NativeError e

/-- The value `std::numeric_limits<double>::max()`, which is the integer
`(2^53 - 1) * 2^971`, written out in decimal. -/
def doubleMax : Nat :=
  179769313486231570814527423731704356798070567525844996598917476803157260780028538760589558632766878171540458953514382464234321326889464182768467546703537516986049910576551282076245490090389328944075868508455133942304583236903222948165808559332123348274797826204144723168738177180919299881250404026184124858368

/-- The XAML window as the core sees it.  `Bounds` is the outcome of
evaluating `uwpRectToRect( _pXamlWindow->Bounds )`: the converted rectangle,
or the exception the native property access raises. -/
structure XamlWindow where
  Bounds : Except PlatformException Rect
deriving DecidableEq

/-- The native call `_pXamlWindow->Activate()`.  A native object that has
been torn down raises on every access, so the call raises what reading
`Bounds` raises and succeeds when `Bounds` can be read. -/
def XamlWindow.Activate (w : XamlWindow) : Except PlatformException Unit :=
  match w.Bounds with
  | .ok _ => .ok ()
  | .error e => .error e

/-- The values of `Windows::UI::Xaml::Visibility`. -/
inductive Visibility where
  | Visible
  | Collapsed
deriving DecidableEq, Repr

/-- The native panel that represents the window (`_pWindowPanel`).  `fault`
is what every access to the panel raises, if anything: it is
`DisconnectedException` once the native object has been torn down.  The other
fields are the native state the core's calls change. -/
structure UwpPanelWithCustomLayout where
  fault : Option PlatformException := Option.none
  Visibility : Visibility := Visibility.Visible
  measureValid : Bool := true
  arrangeValid : Bool := true
deriving DecidableEq, Repr

namespace UwpPanelWithCustomLayout

/-- The native property write `panel->Visibility = v`. -/
def setVisibility (p : UwpPanelWithCustomLayout) (v : bdn.winuwp.Visibility) :
    Except PlatformException UwpPanelWithCustomLayout :=
  match p.fault with
  | some e => .error e
  | Option.none => .ok { p with Visibility := v }

/-- The native call `panel->InvalidateMeasure()`. -/
def InvalidateMeasure (p : UwpPanelWithCustomLayout) :
    Except PlatformException UwpPanelWithCustomLayout :=
  match p.fault with
  | some e => .error e
  | Option.none => .ok { p with measureValid := false }

/-- The native call `panel->InvalidateArrange()`. -/
def InvalidateArrange (p : UwpPanelWithCustomLayout) :
    Except PlatformException UwpPanelWithCustomLayout :=
  match p.fault with
  | some e => .error e
  | Option.none => .ok { p with arrangeValid := false }

end UwpPanelWithCustomLayout

/-- The outer `Window` object, as far as the core's calls into it are
concerned.  `View::adjustAndSetBounds` is not among the sources; the
embedding records, in call order, the rectangle of every call.  In the same
way it records the content area of every `defaultLayout` call and the
available space of every `calcPreferredSize` call.  `childViews` names the
child views `getChildViews` returns, and `doUpdateSizingInfoCalls` records on
which of them `_doUpdateSizingInfo` was called. -/
structure Window where
  adjustAndSetBoundsCalls : List Rect := []
  defaultLayoutCalls : List Rect := []
  calcPreferredSizeCalls : List AvailableSpace := []
  childViews : List Nat := []
  doUpdateSizingInfoCalls : List Nat := []
deriving DecidableEq, Repr

/-- A call `pView->adjustAndSetBounds(bounds)` on the outer window. -/
def Window.adjustAndSetBounds (w : Window) (bounds : Rect) : Window :=
  { w with adjustAndSetBoundsCalls := w.adjustAndSetBoundsCalls ++ [bounds] }

/-- A call `pOuter->defaultLayout(contentArea)` on the outer window. -/
def Window.defaultLayout (w : Window) (contentArea : Rect) : Window :=
  { w with defaultLayoutCalls := w.defaultLayoutCalls ++ [contentArea] }

/-- A call `pChildView->_doUpdateSizingInfo()` on a child view of the
window. -/
def Window.doUpdateSizingInfo (w : Window) (child : Nat) : Window :=
  { w with doUpdateSizingInfoCalls := w.doUpdateSizingInfoCalls ++ [child] }

/-- A call `pWindow->calcPreferredSize(availableSpace)`, as far as the window
is concerned: the call is recorded. -/
def Window.recordCalcPreferredSize (w : Window) (availableSpace : AvailableSpace) : Window :=
  { w with calcPreferredSizeCalls := w.calcPreferredSizeCalls ++ [availableSpace] }

/-- A native `float` that holds a length: a finite, non-negative value, or
one of the values for which `std::isfinite` is false. -/
inductive NativeFloat where
  | finite (value : Nat)
  | infinity
  | negativeInfinity
  | nan
deriving DecidableEq, Repr

/-- The test `std::isfinite`. -/
def NativeFloat.isfinite : NativeFloat → Bool
  | NativeFloat.finite _ => true
  | _ => false

/-- The native size `::Windows::Foundation::Size`. -/
structure UwpSize where
  Width : NativeFloat
  Height : NativeFloat
deriving DecidableEq, Repr

/-- The layout delegate of the window panel: it holds a weak reference to
the window, which resolves to the window or to nothing. -/
structure WindowPanelLayoutDelegate where
  _windowWeak : Option Window := Option.none
deriving DecidableEq, Repr

/-- The object that receives the native events.  `_pParentWeak` is the raw
pointer to the core: `true` while it points to the core, `false` when it is
`nullptr`. -/
structure EventForwarder where
  _pParentWeak : Bool := true
deriving DecidableEq, Repr

/-- The source function `EventForwarder::dispose`: the pointer to the core is
set to `nullptr`. -/
def EventForwarder.dispose (_f : EventForwarder) : EventForwarder :=
  { _pParentWeak := false }

/-- The state of a UWP window core that the modelled operations read or
write: the native window and the two lazily initialised size caches, where
`-1` means "not initialised"; the native window panel; the weak reference to
the outer window, which resolves to the window or to nothing; the
"update already scheduled" flag; and the event forwarder. -/
structure WindowCore where
  _pXamlWindow : XamlWindow
  _emSizeDipsIfInitialized : Int
  _semSizeDipsIfInitialized : Int
  _pWindowPanel : UwpPanelWithCustomLayout := {}
  _outerWindowWeak : Option Window := Option.none
  _outerPositionAndSizeUpdateScheduled : Bool := false
  _pEventForwarder : EventForwarder := {}
deriving DecidableEq

namespace WindowCore

/-- The state of the caches after construction (the member initialisers
`_emSizeDipsIfInitialized = -1` and `_semSizeDipsIfInitialized = -1`). -/
def new (xamlWindow : XamlWindow) : WindowCore :=
  { _pXamlWindow := xamlWindow
    _emSizeDipsIfInitialized := -1
    _semSizeDipsIfInitialized := -1 }

/-- The source function `WindowCore::_getBounds`.  A disconnected window
gives the empty rectangle `Rect()`; any other native failure leaves the
function, translated.  A width or height equal to the largest double becomes
0, and the position is always reported as zero. -/
def _getBounds (self : WindowCore) : Except Error Rect :=
  let read : Except Error Rect :=
    match self._pXamlWindow.Bounds with
    | .ok r => .ok r
    | .error PlatformException.DisconnectedException => .ok ⟨0, 0, 0, 0⟩
    | .error (PlatformException.other hresult) =>
      .error (toStdExc (PlatformException.other hresult))
  match read with
  | .error e => .error e
  | .ok bounds =>
    let bounds := if bounds.width = doubleMax then { bounds with width := 0 } else bounds
    let bounds := if bounds.height = doubleMax then { bounds with height := 0 } else bounds
    .ok { bounds with x := 0, y := 0 }

/-- The source function `WindowCore::adjustAndSetBounds`: the request is
ignored and the current bounds are returned. -/
def adjustAndSetBounds (self : WindowCore) (_bounds : Rect) : Except Error Rect :=
  self._getBounds

/-- The source function `WindowCore::adjustBounds`: the request and the
rounding types are ignored and the current bounds are returned. -/
def adjustBounds (self : WindowCore) (_requestedBounds : Rect)
    (_positionRoundType _sizeRoundType : RoundType) : Except Error Rect :=
  self._getBounds

/-- The source function `WindowCore::getEmSizeDips`: the cache is filled
with 11 on first use.  Returns the value and the core with its cache
updated. -/
def getEmSizeDips (self : WindowCore) : Int × WindowCore :=
  let self :=
    if self._emSizeDipsIfInitialized = -1 then { self with _emSizeDipsIfInitialized := 11 }
    else self
  (self._emSizeDipsIfInitialized, self)

/-- The source function `WindowCore::getSemSizeDips`: the cache is filled
from the UI provider on first use.  `providerSemSizeDips` is the value of
`UiProvider::get().getSemSizeDips()`. -/
def getSemSizeDips (self : WindowCore) (providerSemSizeDips : Int) : Int × WindowCore :=
  let self :=
    if self._semSizeDipsIfInitialized = -1 then
      { self with _semSizeDipsIfInitialized := providerSemSizeDips }
    else self
  (self._semSizeDipsIfInitialized, self)

/-- The source function `WindowCore::uiLengthToDips`.  Returns the outcome
together with the core, whose caches the call may have filled. -/
def uiLengthToDips (self : WindowCore) (providerSemSizeDips : Int) (uiLength : UiLength) :
    Except Error Int × WindowCore :=
  match uiLength.unit with
  | UiLength.Unit.none => (.ok 0, self)
  | UiLength.Unit.dip => (.ok uiLength.value, self)
  | UiLength.Unit.em =>
    let r := self.getEmSizeDips
    (.ok (uiLength.value * r.1), r.2)
  | UiLength.Unit.sem =>
    let r := self.getSemSizeDips providerSemSizeDips
    (.ok (uiLength.value * r.1), r.2)
  | UiLength.Unit.other raw =>
    (.error (Error.InvalidArgumentError
      ("Invalid UiLength unit passed to WindowCore::uiLengthToDips: " ++ toString raw)), self)

/-- The caches hold what the getters put there: each is either still
uninitialised or holds the value its getter stores. -/
def CachesValid (self : WindowCore) (providerSemSizeDips : Int) : Prop :=
  (self._emSizeDipsIfInitialized = -1 ∨ self._emSizeDipsIfInitialized = 11) ∧
  (self._semSizeDipsIfInitialized = -1 ∨ self._semSizeDipsIfInitialized = providerSemSizeDips)

/-- The source function `WindowCore::_getContentSize`: the size of the
current bounds. -/
def _getContentSize (self : WindowCore) : Except Error Size :=
  match self._getBounds with
  | .error e => .error e
  | .ok bounds => .ok ⟨bounds.width, bounds.height⟩

/-- The source function `WindowCore::getContentArea`: the content size,
placed at the origin. -/
def getContentArea (self : WindowCore) : Except Error Rect :=
  match self._getContentSize with
  | .error e => .error e
  | .ok contentSize => .ok ⟨0, 0, contentSize.width, contentSize.height⟩

/-- The source function `WindowCore::setVisible`.  Neither native call is
guarded by a handler for `DisconnectedException`; whatever a call raises
leaves the function, translated.  Returns the outcome and the core as the
call leaves it. -/
def setVisible (self : WindowCore) (visible : Bool) : Except Error Unit × WindowCore :=
  match self._pWindowPanel.setVisibility
      (if visible then Visibility.Visible else Visibility.Collapsed) with
  | .error e => (.error (toStdExc e), self)
  | .ok panel =>
    let self := { self with _pWindowPanel := panel }
    if visible then
      match self._pXamlWindow.Activate with
      | .error e => (.error (toStdExc e), self)
      | .ok _ => (.ok (), self)
    else (.ok (), self)

/-- The source function `WindowCore::needSizingInfoUpdate`: the panel's
measure is invalidated; a disconnected panel is ignored, any other native
failure leaves the function, translated. -/
def needSizingInfoUpdate (self : WindowCore) : Except Error Unit × WindowCore :=
  match self._pWindowPanel.InvalidateMeasure with
  | .ok panel => (.ok (), { self with _pWindowPanel := panel })
  | .error PlatformException.DisconnectedException => (.ok (), self)
  | .error (PlatformException.other hresult) =>
    (.error (toStdExc (PlatformException.other hresult)), self)

/-- The source function `WindowCore::needLayout`: the panel's arrangement is
invalidated; a disconnected panel is ignored, any other native failure leaves
the function, translated. -/
def needLayout (self : WindowCore) : Except Error Unit × WindowCore :=
  match self._pWindowPanel.InvalidateArrange with
  | .ok panel => (.ok (), { self with _pWindowPanel := panel })
  | .error PlatformException.DisconnectedException => (.ok (), self)
  | .error (PlatformException.other hresult) =>
    (.error (toStdExc (PlatformException.other hresult)), self)

end WindowCore

/-- The source function `WindowCore::calcPreferredSize`: it always throws;
the implementation must be provided by the outer window. -/
def WindowCore.calcPreferredSize (_self : WindowCore) (_availableSpace : AvailableSpace) :
    Except Error Size :=
  .error (NotImplementedError.new "WindowCore::calcPreferredSize")

/-! ### The deferred position-and-size update -/

/-- What can wait in the task queue of the UI thread: the position-and-size
update of the core, or a task of some other origin, which does not touch the
core. -/
inductive Task where
  | updateOuterPositionAndSize
  | other (id : Nat)
deriving DecidableEq, Repr

/-- The single UI thread: the core and the queue of pending one-shot tasks,
oldest first. -/
structure MainThread where
  core : WindowCore
  queue : List Task
deriving DecidableEq

/-- Modelled from the spec: `asyncCallFromMainThread`, whose definition is
missing.  The task is scheduled as a one-shot task on the task queue of the
UI thread. -/
def asyncCallFromMainThread (queue : List Task) (task : Task) : List Task :=
  queue ++ [task]

namespace WindowCore

/-- The body of the lambda that `_scheduleUpdateOuterPositionAndSizeProperty`
schedules.  The flag is cleared first; if the weak reference resolves to the
outer window, the current bounds are read and passed to its
`adjustAndSetBounds`. -/
def updateOuterPositionAndSizeTask (self : WindowCore) : Except Error Unit × WindowCore :=
  let self := { self with _outerPositionAndSizeUpdateScheduled := false }
  match self._outerWindowWeak with
  | Option.none => (.ok (), self)
  | some pView =>
    match self._getBounds with
    | .error e => (.error e, self)
    | .ok bounds => (.ok (), { self with _outerWindowWeak := some (pView.adjustAndSetBounds bounds) })

/-- The source function `WindowCore::_windowSizeChanged`: if the weak
reference resolves to the outer window, the current bounds are read and
passed to its `adjustAndSetBounds`.  The handler for `DisconnectedException`
around the body has nothing to catch here: `_getBounds` deals with the
disconnected window itself and the recorded call does not raise. -/
def _windowSizeChanged (self : WindowCore) : Except Error Unit × WindowCore :=
  match self._outerWindowWeak with
  | Option.none => (.ok (), self)
  | some pOuterView =>
    match self._getBounds with
    | .error e => (.error e, self)
    | .ok bounds =>
      (.ok (), { self with _outerWindowWeak := some (pOuterView.adjustAndSetBounds bounds) })

/-- The source function `WindowCore::_windowPanelParentSizeChanged`: its body
is commented out, it does nothing. -/
def _windowPanelParentSizeChanged (self : WindowCore) : Except Error Unit × WindowCore :=
  (.ok (), self)

/-- The native callback `EventForwarder::windowSizeChanged`: forwarded to the
core unless the pointer to the core is `nullptr`.  `toPlatformExc` stands for
the macro pair `BDN_WINUWP_TO_PLATFORMEXC_BEGIN` / `..._END`, whose definition
is missing: it turns a failure of the body into a platform exception. -/
def EventForwarder.windowSizeChanged (toPlatformExc : Error → PlatformException)
    (self : WindowCore) : Except PlatformException Unit × WindowCore :=
  if self._pEventForwarder._pParentWeak then
    match self._windowSizeChanged with
    | (.ok _, core) => (.ok (), core)
    | (.error e, core) => (.error (toPlatformExc e), core)
  else (.ok (), self)

/-- The native callback `EventForwarder::windowPanelParentSizeChanged`:
forwarded to the core unless the pointer to the core is `nullptr`. -/
def EventForwarder.windowPanelParentSizeChanged (toPlatformExc : Error → PlatformException)
    (self : WindowCore) : Except PlatformException Unit × WindowCore :=
  if self._pEventForwarder._pParentWeak then
    match self._windowPanelParentSizeChanged with
    | (.ok _, core) => (.ok (), core)
    | (.error e, core) => (.error (toPlatformExc e), core)
  else (.ok (), self)

/-- The first step of the destructor `~WindowCore`: the event forwarder is
disposed. -/
def disposeEventForwarder (self : WindowCore) : WindowCore :=
  { self with _pEventForwarder := self._pEventForwarder.dispose }

/-- The native events the forwarder is registered for. -/
inductive NativeEvent where
  | windowSizeChanged
  | windowPanelParentSizeChanged
deriving DecidableEq, Repr

/-- The native side raises one event: the matching callback of the forwarder
runs.  What the callback raises goes back to the native caller; the core is
left as the callback leaves it. -/
def deliver (toPlatformExc : Error → PlatformException) (self : WindowCore) :
    NativeEvent → WindowCore
  | NativeEvent.windowSizeChanged => (EventForwarder.windowSizeChanged toPlatformExc self).2
  | NativeEvent.windowPanelParentSizeChanged =>
    (EventForwarder.windowPanelParentSizeChanged toPlatformExc self).2

/-- The native side raises a sequence of events, one after the other. -/
def deliverAll (toPlatformExc : Error → PlatformException) (self : WindowCore)
    (events : List NativeEvent) : WindowCore :=
  events.foldl (deliver toPlatformExc) self

/-- The source function `WindowCore::layout`: if the weak reference resolves
to the outer window, the content size is read and the window's
`defaultLayout` is called with the content area at the origin. -/
def layout (self : WindowCore) : Except Error Unit × WindowCore :=
  match self._outerWindowWeak with
  | Option.none => (.ok (), self)
  | some pOuter =>
    match self._getContentSize with
    | .error e => (.error e, self)
    | .ok contentSize =>
      let contentArea : Rect := ⟨0, 0, contentSize.width, contentSize.height⟩
      (.ok (), { self with _outerWindowWeak := some (pOuter.defaultLayout contentArea) })

/-- The source function `WindowPanelLayoutDelegate::measureOverride`.
`calcPreferredSize` is `Window::calcPreferredSize` on the window at hand and
`sizeToUwpSize` the conversion of the result to a native size; neither is
among the sources.  Returns the native size and the delegate, whose window
has recorded the calls made on it. -/
def WindowPanelLayoutDelegate.measureOverride (calcPreferredSize : Window → AvailableSpace → Size)
    (sizeToUwpSize : Size → UwpSize) (self : WindowPanelLayoutDelegate)
    (winAvailableSize : UwpSize) : UwpSize × WindowPanelLayoutDelegate :=
  match self._windowWeak with
  | some pWindow =>
    let pWindow := pWindow.childViews.foldl Window.doUpdateSizingInfo pWindow
    let availableSpace := Size.none
    let availableSpace :=
      match winAvailableSize.Width with
      | NativeFloat.finite width => { availableSpace with width := some width }
      | _ => availableSpace
    let availableSpace :=
      match winAvailableSize.Height with
      | NativeFloat.finite height => { availableSpace with height := some height }
      | _ => availableSpace
    let resultSize := calcPreferredSize pWindow availableSpace
    (sizeToUwpSize resultSize,
     { self with _windowWeak := some (pWindow.recordCalcPreferredSize availableSpace) })
  | Option.none => (⟨NativeFloat.finite 0, NativeFloat.finite 0⟩, self)

end WindowCore

namespace MainThread

/-- The source function
`WindowCore::_scheduleUpdateOuterPositionAndSizeProperty`: nothing happens
while an update is scheduled; otherwise the flag is set and the update task
is put on the queue. -/
def _scheduleUpdateOuterPositionAndSizeProperty (t : MainThread) : MainThread :=
  if t.core._outerPositionAndSizeUpdateScheduled then t
  else
    { core := { t.core with _outerPositionAndSizeUpdateScheduled := true }
      queue := asyncCallFromMainThread t.queue Task.updateOuterPositionAndSize }

/-- The UI thread takes the oldest pending task off the queue and runs it.
A failure of the task stays in the task. -/
def runNext (t : MainThread) : MainThread :=
  match t.queue with
  | [] => t
  | Task.updateOuterPositionAndSize :: rest =>
    { core := t.core.updateOuterPositionAndSizeTask.2, queue := rest }
  | Task.other _ :: rest => { t with queue := rest }

/-- What can happen on the UI thread, one after the other: the core asks for
an update, the thread runs its oldest pending task, or some other task is
posted. -/
inductive Event where
  | schedule
  | runNext
  | postOther (id : Nat)
deriving DecidableEq, Repr

/-- The effect of one event. -/
def step (t : MainThread) : Event → MainThread
  | Event.schedule => t._scheduleUpdateOuterPositionAndSizeProperty
  | Event.runNext => t.runNext
  | Event.postOther id => { t with queue := asyncCallFromMainThread t.queue (Task.other id) }

/-- The effect of a sequence of events. -/
def run (t : MainThread) (events : List Event) : MainThread :=
  events.foldl step t

/-- The number of position-and-size update tasks that are pending. -/
def pendingUpdates (t : MainThread) : Nat :=
  t.queue.count Task.updateOuterPositionAndSize

/-- The coalescing invariant: at most one update task is pending, and the
flag is set exactly when one is. -/
def Coalesced (t : MainThread) : Prop :=
  t.pendingUpdates ≤ 1 ∧
  (t.core._outerPositionAndSizeUpdateScheduled = true ↔ t.pendingUpdates = 1)

end MainThread

end winuwp

namespace webems

/-- The four core type names the provider compares against: the values of
`ContainerView::getContainerViewCoreTypeName()`,
`Button::getButtonCoreTypeName()`, `TextView::getTextViewCoreTypeName()` and
`Window::getWindowCoreTypeName()`. -/
structure CoreTypeNames where
  containerView : String
  button : String
  textView : String
  window : String

/-- The four names are pairwise different. -/
def CoreTypeNames.Distinct (n : CoreTypeNames) : Prop :=
  n.containerView ≠ n.button ∧ n.containerView ≠ n.textView ∧ n.containerView ≠ n.window ∧
  n.button ≠ n.textView ∧ n.button ≠ n.window ∧ n.textView ≠ n.window

/-- The core objects the provider can create, each for the view it was
given.  `V` is the type of views. -/
inductive IViewCore (V : Type) where
  | ContainerViewCore (view : V)
  | ButtonCore (view : V)
  | TextViewCore (view : V)
  | WindowCore (view : V)
deriving DecidableEq, Repr

namespace UiProvider

/-- The source function `UiProvider::createViewCore`: a chain of string
comparisons, first match wins.  The embedding records which core constructor
is invoked on the view; `cast` and the constructors themselves are outside
the function. -/
def createViewCore {V : Type} (names : CoreTypeNames) (coreTypeName : String) (pView : V) :
    Except Error (IViewCore V) :=
  if coreTypeName = names.containerView then .ok (IViewCore.ContainerViewCore pView)
  else if coreTypeName = names.button then .ok (IViewCore.ButtonCore pView)
  else if coreTypeName = names.textView then .ok (IViewCore.TextViewCore pView)
  else if coreTypeName = names.window then .ok (IViewCore.WindowCore pView)
  else .error (Error.ViewCoreTypeNotSupportedError coreTypeName)

end UiProvider

end webems

/-! ## StringData -/

/-- The value `std::string::npos`, which is `(size_t)-1`; `size_t` has 64
bits. -/
def npos : Nat := 18446744073709551615

/-- The number of values of `size_t`. -/
def sizeModulus : Nat := 18446744073709551616

/-- The loop `while ((*p) != 0) p++` of `getStringEndPtr`.  The first
argument is what lies in memory from `p` on; running off it without meeting a
zero element is undefined behaviour and gives `none`. -/
def scanToZero : List Nat → Nat → Option Nat
  | [], _ => Option.none
  | x :: rest, p => if x = 0 then some p else scanToZero rest (p + 1)

/-- The source function `getStringEndPtr`.  `mem` is the array the pointer
points into and a pointer is an index into it. -/
def getStringEndPtr (mem : List Nat) (p : Nat) (length : Nat) : Option Nat :=
  if length = npos then scanToZero (mem.drop p) p else some (p + length)

/-- The elements between two pointers into `mem`. -/
def elementsBetween (mem : List Nat) (beginPtr endPtr : Nat) : List Nat :=
  (mem.drop beginPtr).take (endPtr - beginPtr)

/-- A string codec, as far as `StringData` uses it; the codec classes are
not among the sources.  `decode` is what a `DecodingIterator` yields over a
whole range of encoded elements, `encode` what an `EncodingIterator` yields
over a whole range of characters. -/
structure Codec where
  decode : List Nat → List Nat
  encode : List Nat → List Nat
  getMaxEncodedElementsPerCharacter : Nat

/-- The member `_encodedString`, a `std::basic_string`: its elements, and the
capacity that has been asked for with `reserve`. -/
structure EncodedString where
  elements : List Nat := []
  reserved : Nat := 0
deriving DecidableEq, Repr

/-- What `std::basic_string::reserve` throws: `std::length_error` for a
request above `max_size()`, and `std::bad_alloc` when the allocator cannot
supply the storage. -/
inductive StdException where
  | length_error
  | bad_alloc
deriving DecidableEq, Repr

namespace EncodedString

/-- The call `assign(first, last)`: the elements are replaced.  Every
constructor makes this call with the data it is given; the embedding
describes the runs in which it gets the storage it needs. -/
def assign (s : EncodedString) (elements : List Nat) : EncodedString :=
  { s with elements := elements }

/-- The call `reserve(n)`.  It throws `length_error` when `n` exceeds
`max_size()`.  A request within the capacity already held needs no storage
and succeeds.  Any other request goes to the allocator: `canAllocate n` tells
whether the allocator supplies the storage for `n` elements at the time of
the call; if it does not, the call throws `bad_alloc`.  A call that succeeds
only changes the capacity. -/
def reserve (max_size : Nat) (canAllocate : Nat → Bool) (s : EncodedString) (n : Nat) :
    Except StdException EncodedString :=
  if max_size < n then .error StdException.length_error
  else if n ≤ s.reserved then .ok s
  else if canAllocate n then .ok { s with reserved := n }
  else .error StdException.bad_alloc

/-- The call `shrink_to_fit()`: only the capacity changes. -/
def shrink_to_fit (s : EncodedString) : EncodedString :=
  { s with reserved := s.elements.length }

end EncodedString

/-- The category of the character iterators given to a constructor. -/
inductive IteratorCategory where
  | input
  | forward
  | bidirectional
  | randomAccess
deriving DecidableEq, Repr

/-- An object of `StringData<Codec>`. -/
structure StringData where
  _encodedString : EncodedString
deriving DecidableEq, Repr

namespace StringData

/-- The constructor `StringData(beginIt, endIt)` from decoded characters. -/
def ofChars (codec : Codec) (chars : List Nat) : StringData :=
  { _encodedString := EncodedString.assign {} (codec.encode chars) }

/-- The value `charCount * Codec::getMaxEncodedElementsPerCharacter()` as the
private constructor computes it: `charCount` is a `size_t` and so is the
product. -/
def reservationSize (codec : Codec) (charCount : Nat) : Nat :=
  (charCount * codec.getMaxEncodedElementsPerCharacter) % sizeModulus

/-- The private constructor for `std::input_iterator_tag`.  `max_size` and
`canAllocate` describe the string implementation and the allocator the
reservation meets. -/
def ofCharsInput (codec : Codec) (max_size : Nat) (canAllocate : Nat → Bool) (chars : List Nat)
    (charCount : Nat) : Except StdException StringData :=
  if charCount ≠ npos then
    let maxSize := reservationSize codec charCount
    match EncodedString.reserve max_size canAllocate {} maxSize with
    | .error e => .error e
    | .ok s =>
      let s := s.assign (codec.encode chars)
      let s := if s.elements.length < maxSize - maxSize / 4 then s.shrink_to_fit else s
      .ok { _encodedString := s }
  else
    .ok { _encodedString := EncodedString.assign {} (codec.encode chars) }

/-- The private constructor for `std::forward_iterator_tag`: `charCount` is
ignored. -/
def ofCharsForward (codec : Codec) (chars : List Nat) (_charCount : Nat) : StringData :=
  { _encodedString := EncodedString.assign {} (codec.encode chars) }

/-- The constructor `StringData(beginIt, endIt, charCount)`: it dispatches on
the iterator category; every category other than `input` derives from the
forward tag. -/
def ofCharsCount (codec : Codec) (max_size : Nat) (canAllocate : Nat → Bool)
    (category : IteratorCategory) (chars : List Nat) (charCount : Nat) :
    Except StdException StringData :=
  match category with
  | IteratorCategory.input => ofCharsInput codec max_size canAllocate chars charCount
  | _ => .ok (ofCharsForward codec chars charCount)

/-- The constructor `StringData(const Codec&, EncodedString::iterator,
EncodedString::iterator)`: data in the object's own encoding, given by two
mutable string iterators, is copied. -/
def ofEncodedIterators (_codec : Codec) (data : List Nat) : StringData :=
  { _encodedString := EncodedString.assign {} data }

/-- The constructor `StringData(const Codec&, EncodedElement*,
EncodedElement*)`: data in the object's own encoding, given by two pointers
to mutable elements, is copied. -/
def ofEncodedPointers (_codec : Codec) (mem : List Nat) (beginPtr endPtr : Nat) : StringData :=
  { _encodedString := EncodedString.assign {} (elementsBetween mem beginPtr endPtr) }

/-- The constructor template `StringData(const InputCodec&,
InputEncodedIterator, InputEncodedIterator)`: the data is decoded with the
input codec and encoded again with the object's codec. -/
def ofCodec (inputCodec codec : Codec) (data : List Nat) : StringData :=
  { _encodedString := EncodedString.assign {} (codec.encode (inputCodec.decode data)) }

/-- The constructor `StringData(const char* s, size_t lengthBytes)`.  It
delegates to `StringData(Utf8Codec(), s, getStringEndPtr(s, lengthBytes))`.
Both arguments are `const char*`, which converts neither to
`EncodedString::iterator` nor to the pointer to mutable elements
`EncodedElement*`, so the call resolves to the constructor template
`ofCodec`, whatever the object's codec is. -/
def ofCString (utf8Codec codec : Codec) (mem : List Nat) (s : Nat) (lengthBytes : Nat) :
    Option StringData :=
  match getStringEndPtr mem s lengthBytes with
  | Option.none => Option.none
  | some endPtr => some (ofCodec utf8Codec codec (elementsBetween mem s endPtr))

/-- The constructor `StringData(const std::string& s)`.  It delegates to
`StringData(Utf8Codec(), s.begin(), s.end())`.  The iterators of a constant
string are `const_iterator`s, which do not convert to
`EncodedString::iterator`, so the call resolves to the constructor template
`ofCodec`, whatever the object's codec is. -/
def ofString (utf8Codec codec : Codec) (s : List Nat) : StringData :=
  ofCodec utf8Codec codec s

end StringData

/-! ### StringData::Iterator -/

/-- The base class `Codec::DecodingStringIterator` of `StringData::Iterator`,
which is not among the sources: its `operator++` and `operator--` on
iterators of type `I`. -/
structure DecodingStringIterator (I : Type) where
  increment : I → I
  decrement : I → I

namespace StringData.Iterator

/-- The loop `for (std::ptrdiff_t i = 0; i < val; i++) op();` from the
counter value `i` on. -/
def forLoop {I : Type} (op : I → I) (val : Int) (i : Int) (it : I) : I :=
  if i < val then forLoop op val (i + 1) (op it) else it
termination_by (val - i).toNat
decreasing_by omega

/-- The source function `Iterator::operator+=`. -/
def plusAssign {I : Type} (base : DecodingStringIterator I) (it : I) (val : Int) : I :=
  forLoop base.increment val 0 it

/-- The source function `Iterator::operator-=`. -/
def minusAssign {I : Type} (base : DecodingStringIterator I) (it : I) (val : Int) : I :=
  forLoop base.decrement val 0 it

/-- The source function `Iterator::operator+`: a copy of the iterator is
advanced with `operator+=` and returned. -/
def plus {I : Type} (base : DecodingStringIterator I) (self : I) (val : Int) : I :=
  let it := self
  plusAssign base it val

/-- The source function `Iterator::operator-`: a copy of the iterator is
moved with `operator-=` and returned. -/
def minus {I : Type} (base : DecodingStringIterator I) (self : I) (val : Int) : I :=
  let it := self
  minusAssign base it val

end StringData.Iterator

/-! ### A UTF-8 codec to evaluate the constructors with

`Utf8Codec` is not among the sources.  The instance below is UTF-8 as the
Unicode standard defines it, for code points up to U+10FFFF; a byte that does
not start a well-formed sequence is decoded to U+FFFD on its own. -/

namespace Utf8

/-- Whether a byte is a continuation byte. -/
def isContinuation (b : Nat) : Bool := decide (128 ≤ b) && decide (b < 192)

/-- One decoding step on a non-empty range: the character and what is left
of the range. -/
def decodeOne : List Nat → Nat × List Nat
  | [] => (65533, [])
  | b0 :: r0 =>
    if b0 < 128 then (b0, r0)
    else if 192 ≤ b0 ∧ b0 < 224 then
      match r0 with
      | b1 :: r1 =>
        let v := (b0 - 192) * 64 + (b1 - 128)
        if isContinuation b1 ∧ 128 ≤ v then (v, r1) else (65533, r0)
      | _ => (65533, r0)
    else if 224 ≤ b0 ∧ b0 < 240 then
      match r0 with
      | b1 :: b2 :: r2 =>
        let v := (b0 - 224) * 4096 + (b1 - 128) * 64 + (b2 - 128)
        if isContinuation b1 ∧ isContinuation b2 ∧ 2048 ≤ v ∧ ¬ (55296 ≤ v ∧ v < 57344) then
          (v, r2)
        else (65533, r0)
      | _ => (65533, r0)
    else if 240 ≤ b0 ∧ b0 < 248 then
      match r0 with
      | b1 :: b2 :: b3 :: r3 =>
        let v := (b0 - 240) * 262144 + (b1 - 128) * 4096 + (b2 - 128) * 64 + (b3 - 128)
        if isContinuation b1 ∧ isContinuation b2 ∧ isContinuation b3 ∧
            65536 ≤ v ∧ v ≤ 1114111 then
          (v, r3)
        else (65533, r0)
      | _ => (65533, r0)
    else (65533, r0)

/-- Decoding of a whole range; `fuel` bounds the number of characters. -/
def decodeAll : Nat → List Nat → List Nat
  | 0, _ => []
  | _ + 1, [] => []
  | fuel + 1, b :: rest =>
    (decodeOne (b :: rest)).1 :: decodeAll fuel (decodeOne (b :: rest)).2

/-- Decoding of a whole range: every step consumes an element, so the length
of the range is fuel enough. -/
def decode (data : List Nat) : List Nat := decodeAll data.length data

/-- The encoding of one character; a value that is no Unicode scalar value
is encoded as U+FFFD. -/
def encodeChar (c : Nat) : List Nat :=
  if c < 128 then [c]
  else if c < 2048 then [192 + c / 64, 128 + c % 64]
  else if 55296 ≤ c ∧ c < 57344 then [239, 191, 189]
  else if c < 65536 then [224 + c / 4096, 128 + c / 64 % 64, 128 + c % 64]
  else if c ≤ 1114111 then
    [240 + c / 262144, 128 + c / 4096 % 64, 128 + c / 64 % 64, 128 + c % 64]
  else [239, 191, 189]

/-- Encoding of a whole range of characters. -/
def encode : List Nat → List Nat
  | [] => []
  | c :: rest => encodeChar c ++ encode rest

/-- The codec instance. -/
def codec : Codec :=
  { decode := decode, encode := encode, getMaxEncodedElementsPerCharacter := 4 }

end Utf8

end bdn

/-! ## Theorems: ScrollViewLayoutHelper -/

namespace bdn

namespace ScrollViewLayoutHelper

/-- A round never hides a bar that is visible. -/
theorem visibilityPass_inflationary (self : ScrollViewLayoutHelper) (sv : ScrollView)
    (natural viewPortSize : Size) (vis : Bool × Bool) :
    (vis.1 = true → (visibilityPass self sv natural viewPortSize vis).1 = true) ∧
    (vis.2 = true → (visibilityPass self sv natural viewPortSize vis).2 = true) := by
  constructor <;> intro h <;> simp [visibilityPass, h]

/-- A round function that never hides a bar is stable after at most two
changes, so three rounds always suffice. -/
theorem stabilize_of_inflationary (step : Bool × Bool → Bool × Bool)
    (hinf : ∀ vis, (vis.1 = true → (step vis).1 = true) ∧ (vis.2 = true → (step vis).2 = true))
    (fuel : Nat) (hfuel : 3 ≤ fuel) :
    ∃ vis, stabilize step fuel (false, false) = some vis ∧ step vis = vis ∧
      ∃ n, n ≤ 2 ∧ step^[n] (false, false) = vis := by
  obtain ⟨k, rfl⟩ : ∃ k, fuel = k + 3 := ⟨fuel - 3, by omega⟩
  by_cases h0 : step (false, false) = (false, false)
  · exact ⟨(false, false), by simp [stabilize, h0], h0, 0, by omega, rfl⟩
  · by_cases h1 : step (step (false, false)) = step (false, false)
    · exact ⟨step (false, false), by simp [stabilize, h0, h1], h1, 1, by omega, rfl⟩
    · have h2 : step (step (step (false, false))) = step (step (false, false)) := by
        have a1 := hinf (step (false, false))
        have a2 := hinf (step (step (false, false)))
        rcases e1 : step (false, false) with ⟨x1, y1⟩
        rw [e1] at a1 h1 h0
        rcases e2 : step (x1, y1) with ⟨x2, y2⟩
        rw [e1, e2] at a2
        rw [e2] at a1 h1
        rcases e3 : step (x2, y2) with ⟨x3, y3⟩
        rw [e3] at a2
        cases x1 <;> cases y1 <;> cases x2 <;> cases y2 <;> cases x3 <;> cases y3 <;>
          simp_all
      exact ⟨step (step (false, false)), by simp [stabilize, h0, h1, h2], h2, 2, by omega, rfl⟩

/-- The result of a layout pass depends on the helper only through the two
bar thicknesses. -/
theorem calcLayout_congr (fuel : Nat) (a b : ScrollViewLayoutHelper)
    (hv : a.vertBarWidth = b.vertBarWidth) (hh : a.horzBarHeight = b.horzBarHeight)
    (scrollView : Option ScrollView) (viewPortSize : Size) :
    calcLayout fuel a scrollView viewPortSize = calcLayout fuel b scrollView viewPortSize := by
  have hpass : ∀ sv natural, visibilityPass a sv natural viewPortSize =
      visibilityPass b sv natural viewPortSize := by
    intro sv natural
    funext vis
    simp [visibilityPass, availWidth, availHeight, hv, hh]
  unfold calcLayout
  cases hc : contentOf scrollView with
  | none => simp [hv, hh]
  | some p =>
    obtain ⟨sv, c⟩ := p
    simp only [hpass]
    cases stabilize (visibilityPass b sv (naturalSize sv c viewPortSize) viewPortSize) fuel
        (false, false) with
    | none => rfl
    | some vis => simp [availWidth, availHeight, hv, hh]

/-- With a content view, enough fuel makes `calcLayout` return, and the
result is described by a stable visibility pair reached from
(hidden, hidden) in at most two rounds. -/
theorem calcLayout_some (fuel : Nat) (hfuel : 3 ≤ fuel) (self : ScrollViewLayoutHelper)
    (sv : ScrollView) (c : View) (hc : sv.contentView = some c) (viewPortSize : Size) :
    ∃ vis : Bool × Bool,
      calcLayout fuel self (some sv) viewPortSize =
        some { self with
          horizontalScrollBarVisible := vis.1
          verticalScrollBarVisible := vis.2
          contentViewBounds :=
            ⟨0, 0, availWidth self viewPortSize vis.2, availHeight self viewPortSize vis.1⟩
          scrolledAreaSize := naturalSize sv c viewPortSize
          viewPortSize := viewPortSize } ∧
      visibilityPass self sv (naturalSize sv c viewPortSize) viewPortSize vis = vis ∧
      ∃ n, n ≤ 2 ∧
        (visibilityPass self sv (naturalSize sv c viewPortSize) viewPortSize)^[n] (false, false)
          = vis := by
  obtain ⟨vis, hs, hstable, hn⟩ := stabilize_of_inflationary
    (visibilityPass self sv (naturalSize sv c viewPortSize) viewPortSize)
    (visibilityPass_inflationary self sv _ viewPortSize) fuel hfuel
  refine ⟨vis, ?_, hstable, hn⟩
  simp [calcLayout, contentOf, hc, hs]

/-- Without a content view `calcLayout` returns at once, whatever the
fuel. -/
theorem calcLayout_absent (fuel : Nat) (self : ScrollViewLayoutHelper)
    (scrollView : Option ScrollView) (hc : contentOf scrollView = Option.none)
    (viewPortSize : Size) :
    calcLayout fuel self scrollView viewPortSize =
      some { self with
        horizontalScrollBarVisible := false
        verticalScrollBarVisible := false
        contentViewBounds := ⟨0, 0, viewPortSize.width, viewPortSize.height⟩
        scrolledAreaSize := viewPortSize
        viewPortSize := viewPortSize } := by
  simp [calcLayout, hc]

/-- What `contentOf` finds is the scroll view itself and its content view. -/
theorem contentOf_eq_some (scrollView : Option ScrollView) (sv : ScrollView) (c : View)
    (h : contentOf scrollView = some (sv, c)) :
    scrollView = some sv ∧ sv.contentView = some c := by
  cases scrollView with
  | none => simp [contentOf] at h
  | some sv0 =>
    cases hc : sv0.contentView with
    | none => simp [contentOf, hc] at h
    | some c0 =>
      simp only [contentOf, hc, Option.some.injEq, Prod.mk.injEq] at h
      obtain ⟨rfl, rfl⟩ := h
      exact ⟨rfl, hc⟩

/-- Enough fuel makes `calcLayout` return, and the returned helper keeps the
bar thicknesses. -/
theorem calcLayout_returns (fuel : Nat) (hfuel : 3 ≤ fuel) (self : ScrollViewLayoutHelper)
    (scrollView : Option ScrollView) (viewPortSize : Size) :
    ∃ r, calcLayout fuel self scrollView viewPortSize = some r ∧
      r.vertBarWidth = self.vertBarWidth ∧ r.horzBarHeight = self.horzBarHeight := by
  cases hc : contentOf scrollView with
  | none => exact ⟨_, calcLayout_absent fuel self scrollView hc viewPortSize, rfl, rfl⟩
  | some p =>
    obtain ⟨sv, c⟩ := p
    obtain ⟨rfl, hcv⟩ := contentOf_eq_some scrollView sv c hc
    obtain ⟨vis, hcalc, -, -⟩ := calcLayout_some fuel hfuel self sv c hcv viewPortSize
    exact ⟨_, hcalc, rfl, rfl⟩

/-- While horizontal scrolling is disabled no number of rounds shows the
horizontal bar. -/
theorem iterate_horz_disabled (self : ScrollViewLayoutHelper) (sv : ScrollView)
    (natural viewPortSize : Size) (hd : sv.horizontalScrollingEnabled = false) (n : Nat) :
    ((visibilityPass self sv natural viewPortSize)^[n] (false, false)).1 = false := by
  induction n with
  | zero => rfl
  | succ k ih =>
    rw [Function.iterate_succ_apply']
    simp [visibilityPass, hd, ih]

/-- While vertical scrolling is disabled no number of rounds shows the
vertical bar. -/
theorem iterate_vert_disabled (self : ScrollViewLayoutHelper) (sv : ScrollView)
    (natural viewPortSize : Size) (hd : sv.verticalScrollingEnabled = false) (n : Nat) :
    ((visibilityPass self sv natural viewPortSize)^[n] (false, false)).2 = false := by
  induction n with
  | zero => rfl
  | succ k ih =>
    rw [Function.iterate_succ_apply']
    simp [visibilityPass, hd, ih]

/-- C1: for every viewport size, every pair of bar thicknesses and every
earlier state of the helper, `calcLayout(null, vp)` hides both bars, makes
`contentViewBounds` the rectangle `(0, 0, vp.width, vp.height)` and sets both
`scrolledAreaSize` and `viewPortSize` to `vp`; in particular for thicknesses
(13, 7) and the viewport (1000, 1000). -/
theorem calcLayout_null :
    (∀ (fuel : Nat) (self : ScrollViewLayoutHelper) (vp : Size),
      ∃ r, calcLayout fuel self Option.none vp = some r ∧
        r.horizontalScrollBarVisible = false ∧ r.verticalScrollBarVisible = false ∧
        r.contentViewBounds = ⟨0, 0, vp.width, vp.height⟩ ∧
        r.scrolledAreaSize = vp ∧ r.viewPortSize = vp ∧
        r.vertBarWidth = self.vertBarWidth ∧ r.horzBarHeight = self.horzBarHeight) ∧
    calcLayout 0 (new 13 7) Option.none ⟨1000, 1000⟩ =
      some { vertBarWidth := 13, horzBarHeight := 7,
             horizontalScrollBarVisible := false, verticalScrollBarVisible := false,
             contentViewBounds := ⟨0, 0, 1000, 1000⟩,
             scrolledAreaSize := ⟨1000, 1000⟩, viewPortSize := ⟨1000, 1000⟩ } := by
  refine ⟨?_, by decide⟩
  intro fuel self vp
  exact ⟨_, calcLayout_absent fuel self Option.none rfl vp, rfl, rfl, rfl, rfl, rfl, rfl, rfl⟩

/-- C2: for every available space and every pair of bar thicknesses,
`calcPreferredSize(null, availableSpace)` is `Size(0, 0)`; in particular for
thicknesses (13, 7) and `Size::none()`. -/
theorem calcPreferredSize_null :
    (∀ (self : ScrollViewLayoutHelper) (availableSpace : AvailableSpace),
      calcPreferredSize self Option.none availableSpace = ⟨0, 0⟩) ∧
    calcPreferredSize (new 13 7) Option.none Size.none = ⟨0, 0⟩ := by
  exact ⟨fun _ _ => rfl, rfl⟩

/-- C3: for every viewport, all bar thicknesses and each combination of
enabled axes, if the natural size of the content fits in the viewport on both
axes then `calcLayout` returns with no bar visible and `contentViewBounds`
equal to the rectangle `(0, 0, viewport.width, viewport.height)`. -/
theorem calcLayout_content_fits (fuel : Nat) (hfuel : 1 ≤ fuel) (self : ScrollViewLayoutHelper)
    (sv : ScrollView) (c : View) (hc : sv.contentView = some c) (vp : Size)
    (hw : (naturalSize sv c vp).width ≤ vp.width)
    (hh : (naturalSize sv c vp).height ≤ vp.height) :
    ∃ r, calcLayout fuel self (some sv) vp = some r ∧
      r.horizontalScrollBarVisible = false ∧ r.verticalScrollBarVisible = false ∧
      r.contentViewBounds = ⟨0, 0, vp.width, vp.height⟩ := by
  obtain ⟨k, rfl⟩ : ∃ k, fuel = k + 1 := ⟨fuel - 1, by omega⟩
  have hstable : visibilityPass self sv (naturalSize sv c vp) vp (false, false) =
      (false, false) := by
    simp [visibilityPass, availWidth, availHeight, hw, hh]
  have hcalc : calcLayout (k + 1) self (some sv) vp =
      some { self with
        horizontalScrollBarVisible := false
        verticalScrollBarVisible := false
        contentViewBounds := ⟨0, 0, availWidth self vp false, availHeight self vp false⟩
        scrolledAreaSize := naturalSize sv c vp
        viewPortSize := vp } := by
    simp [calcLayout, contentOf, hc, stabilize, hstable]
  exact ⟨_, hcalc, rfl, rfl, by simp [availWidth, availHeight]⟩

/-- Witness of C3: content of natural size (500, 50) in a viewport of
(1000, 1000), both axes enabled, thicknesses (13, 7). -/
theorem calcLayout_content_fits_witness :
    ∃ r, calcLayout 1 (new 13 7) (some ⟨true, true, some ⟨fun _ => ⟨500, 50⟩⟩⟩) ⟨1000, 1000⟩
        = some r ∧
      r.horizontalScrollBarVisible = false ∧ r.verticalScrollBarVisible = false ∧
      r.contentViewBounds = ⟨0, 0, 1000, 1000⟩ :=
  calcLayout_content_fits 1 (by decide) (new 13 7) ⟨true, true, some ⟨fun _ => ⟨500, 50⟩⟩⟩
    ⟨fun _ => ⟨500, 50⟩⟩ rfl ⟨1000, 1000⟩ (by decide) (by decide)

/-- C4: on an axis whose scrolling is disabled, for every content view,
viewport and bar thickness, `calcLayout` returns with that axis's bar hidden,
and neither `contentViewBounds` nor `scrolledAreaSize` exceeds the viewport
on that axis.  Stated for the horizontal and for the vertical axis. -/
theorem calcLayout_disabled_axis (fuel : Nat) (hfuel : 3 ≤ fuel) (self : ScrollViewLayoutHelper)
    (sv : ScrollView) (vp : Size) :
    ∃ r, calcLayout fuel self (some sv) vp = some r ∧
      (sv.horizontalScrollingEnabled = false →
        r.horizontalScrollBarVisible = false ∧
        r.contentViewBounds.width ≤ vp.width ∧ r.scrolledAreaSize.width ≤ vp.width) ∧
      (sv.verticalScrollingEnabled = false →
        r.verticalScrollBarVisible = false ∧
        r.contentViewBounds.height ≤ vp.height ∧ r.scrolledAreaSize.height ≤ vp.height) := by
  cases hc : sv.contentView with
  | none =>
    refine ⟨_, calcLayout_absent fuel self (some sv) (by simp [contentOf, hc]) vp, ?_, ?_⟩
    · intro _; exact ⟨rfl, Nat.le_refl _, Nat.le_refl _⟩
    · intro _; exact ⟨rfl, Nat.le_refl _, Nat.le_refl _⟩
  | some c =>
    obtain ⟨vis, hcalc, -, n, -, hn⟩ := calcLayout_some fuel hfuel self sv c hc vp
    refine ⟨_, hcalc, ?_, ?_⟩
    · intro hd
      refine ⟨?_, ?_, ?_⟩
      · show vis.1 = false
        rw [← hn]; exact iterate_horz_disabled self sv _ vp hd n
      · show availWidth self vp vis.2 ≤ vp.width
        exact Nat.sub_le _ _
      · show (naturalSize sv c vp).width ≤ vp.width
        simp [naturalSize, hd]
    · intro hd
      refine ⟨?_, ?_, ?_⟩
      · show vis.2 = false
        rw [← hn]; exact iterate_vert_disabled self sv _ vp hd n
      · show availHeight self vp vis.1 ≤ vp.height
        exact Nat.sub_le _ _
      · show (naturalSize sv c vp).height ≤ vp.height
        simp [naturalSize, hd]

/-- Witness of C4: only vertical scrolling enabled, content that asks for
(2000, 3000) whatever it is offered, viewport (1000, 1000), thicknesses
(13, 7). -/
theorem calcLayout_disabled_axis_witness :
    ∃ r, calcLayout 3 (new 13 7) (some ⟨false, true, some ⟨fun _ => ⟨2000, 3000⟩⟩⟩)
        ⟨1000, 1000⟩ = some r ∧
      ((false : Bool) = false →
        r.horizontalScrollBarVisible = false ∧
        r.contentViewBounds.width ≤ 1000 ∧ r.scrolledAreaSize.width ≤ 1000) ∧
      ((true : Bool) = false →
        r.verticalScrollBarVisible = false ∧
        r.contentViewBounds.height ≤ 1000 ∧ r.scrolledAreaSize.height ≤ 1000) :=
  calcLayout_disabled_axis 3 (by decide) (new 13 7)
    ⟨false, true, some ⟨fun _ => ⟨2000, 3000⟩⟩⟩ ⟨1000, 1000⟩

/-- C5: `calcLayout` terminates for every content view, viewport and bar
thickness: three rounds of fuel (or more) always produce a result, whose
visibility pair is stable under a further round and is reached from
(hidden, hidden) in at most two rounds. -/
theorem calcLayout_terminates (fuel : Nat) (hfuel : 3 ≤ fuel) (self : ScrollViewLayoutHelper)
    (scrollView : Option ScrollView) (vp : Size) :
    ∃ r, calcLayout fuel self scrollView vp = some r ∧
      ∀ sv c, contentOf scrollView = some (sv, c) →
        visibilityPass self sv (naturalSize sv c vp) vp
            (r.horizontalScrollBarVisible, r.verticalScrollBarVisible)
          = (r.horizontalScrollBarVisible, r.verticalScrollBarVisible) ∧
        ∃ n, n ≤ 2 ∧
          (visibilityPass self sv (naturalSize sv c vp) vp)^[n] (false, false)
            = (r.horizontalScrollBarVisible, r.verticalScrollBarVisible) := by
  cases hc : contentOf scrollView with
  | none =>
    exact ⟨_, calcLayout_absent fuel self scrollView hc vp, fun sv c h => by simp at h⟩
  | some p =>
    obtain ⟨sv, c⟩ := p
    obtain ⟨rfl, hcv⟩ := contentOf_eq_some scrollView sv c hc
    obtain ⟨vis, hcalc, hstable, hn⟩ := calcLayout_some fuel hfuel self sv c hcv vp
    refine ⟨_, hcalc, ?_⟩
    intro sv1 c1 h1
    simp only [Option.some.injEq, Prod.mk.injEq] at h1
    obtain ⟨rfl, rfl⟩ := h1
    exact ⟨hstable, hn⟩

/-- Witness of C5, at the boundary where one bar makes the other axis
overflow: content (1001, 995) in a viewport of (1000, 1000) with thicknesses
(13, 7).  The horizontal bar leaves a height of 993, so the vertical bar
follows; both bars end up visible, and two rounds of fuel are not enough. -/
theorem calcLayout_terminates_witness :
    (∃ r, calcLayout 3 (new 13 7) (some ⟨true, true, some ⟨fun _ => ⟨1001, 995⟩⟩⟩) ⟨1000, 1000⟩
        = some r ∧
      ∀ sv c, contentOf (some ⟨true, true, some ⟨fun _ => ⟨1001, 995⟩⟩⟩) = some (sv, c) →
        visibilityPass (new 13 7) sv (naturalSize sv c ⟨1000, 1000⟩) ⟨1000, 1000⟩
            (r.horizontalScrollBarVisible, r.verticalScrollBarVisible)
          = (r.horizontalScrollBarVisible, r.verticalScrollBarVisible) ∧
        ∃ n, n ≤ 2 ∧
          (visibilityPass (new 13 7) sv (naturalSize sv c ⟨1000, 1000⟩) ⟨1000, 1000⟩)^[n]
              (false, false)
            = (r.horizontalScrollBarVisible, r.verticalScrollBarVisible)) ∧
    (calcLayout 3 (new 13 7) (some ⟨true, true, some ⟨fun _ => ⟨1001, 995⟩⟩⟩) ⟨1000, 1000⟩).map
        (fun r => (r.horizontalScrollBarVisible, r.verticalScrollBarVisible))
      = some (true, true) ∧
    calcLayout 2 (new 13 7) (some ⟨true, true, some ⟨fun _ => ⟨1001, 995⟩⟩⟩) ⟨1000, 1000⟩
      = Option.none :=
  ⟨calcLayout_terminates 3 (by decide) (new 13 7)
      (some ⟨true, true, some ⟨fun _ => ⟨1001, 995⟩⟩⟩) ⟨1000, 1000⟩,
   by decide, by decide⟩

/-- C6: with thicknesses (13, 7), both axes enabled, content of natural size
(2000, 50) and a viewport of (1000, 1000), `calcLayout` returns with the
vertical bar hidden, the horizontal bar visible and a content height of
1000 - 7 = 993. -/
theorem calcLayout_scenario (fuel : Nat) (hfuel : 3 ≤ fuel) (self : ScrollViewLayoutHelper)
    (_hv : self.vertBarWidth = 13) (hh : self.horzBarHeight = 7)
    (c : View) (hc : c.calcPreferredSize Size.none = ⟨2000, 50⟩) :
    ∃ r, calcLayout fuel self (some ⟨true, true, some c⟩) ⟨1000, 1000⟩ = some r ∧
      r.verticalScrollBarVisible = false ∧ r.horizontalScrollBarVisible = true ∧
      r.contentViewBounds.height = 993 := by
  obtain ⟨k, rfl⟩ : ∃ k, fuel = k + 3 := ⟨fuel - 3, by omega⟩
  have hnat : naturalSize ⟨true, true, some c⟩ c ⟨1000, 1000⟩ = ⟨2000, 50⟩ := by
    have : contentSpace ⟨true, true, some c⟩ (some 1000) (some 1000) = Size.none := rfl
    simp [naturalSize, this, hc]
  have h0 : visibilityPass self ⟨true, true, some c⟩ ⟨2000, 50⟩ ⟨1000, 1000⟩ (false, false)
      = (true, false) := by
    simp [visibilityPass, availWidth, availHeight]
  have h1 : visibilityPass self ⟨true, true, some c⟩ ⟨2000, 50⟩ ⟨1000, 1000⟩ (true, false)
      = (true, false) := by
    simp [visibilityPass, availWidth, availHeight, hh]
  have hcalc : calcLayout (k + 3) self (some ⟨true, true, some c⟩) ⟨1000, 1000⟩ =
      some { self with
        horizontalScrollBarVisible := true
        verticalScrollBarVisible := false
        contentViewBounds :=
          ⟨0, 0, availWidth self ⟨1000, 1000⟩ false, availHeight self ⟨1000, 1000⟩ true⟩
        scrolledAreaSize := ⟨2000, 50⟩
        viewPortSize := ⟨1000, 1000⟩ } := by
    simp [calcLayout, contentOf, hnat, stabilize, h0, h1]
  exact ⟨_, hcalc, rfl, rfl, by simp [availHeight, hh]⟩

/-- Witness of C6: the helper `ScrollViewLayoutHelper(13, 7)` and a content
view that always asks for (2000, 50). -/
theorem calcLayout_scenario_witness :
    ∃ r, calcLayout 3 (new 13 7) (some ⟨true, true, some ⟨fun _ => ⟨2000, 50⟩⟩⟩) ⟨1000, 1000⟩
        = some r ∧
      r.verticalScrollBarVisible = false ∧ r.horizontalScrollBarVisible = true ∧
      r.contentViewBounds.height = 993 :=
  calcLayout_scenario 3 (by decide) (new 13 7) rfl rfl ⟨fun _ => ⟨2000, 50⟩⟩ rfl

/-- C7: `calcLayout` is idempotent.  A second call with the same scroll view
and viewport on the helper the first call produced returns that same helper,
and the result of a call is the same for every earlier state of the helper
(every helper with the same two bar thicknesses). -/
theorem calcLayout_idempotent (fuel : Nat) (hfuel : 3 ≤ fuel) (self : ScrollViewLayoutHelper)
    (scrollView : Option ScrollView) (vp : Size) :
    ∃ r, calcLayout fuel self scrollView vp = some r ∧
      calcLayout fuel r scrollView vp = some r ∧
      ∀ other : ScrollViewLayoutHelper,
        other.vertBarWidth = self.vertBarWidth → other.horzBarHeight = self.horzBarHeight →
        calcLayout fuel other scrollView vp = some r := by
  obtain ⟨r, hr, hv, hh⟩ := calcLayout_returns fuel hfuel self scrollView vp
  refine ⟨r, hr, ?_, ?_⟩
  · rw [calcLayout_congr fuel r self hv hh scrollView vp, hr]
  · intro other hov hoh
    rw [calcLayout_congr fuel other self hov hoh scrollView vp, hr]

/-- Witness of C7: content (1001, 995) in a viewport of (1000, 1000), both
axes enabled, thicknesses (13, 7). -/
theorem calcLayout_idempotent_witness :
    ∃ r, calcLayout 3 (new 13 7) (some ⟨true, true, some ⟨fun _ => ⟨1001, 995⟩⟩⟩) ⟨1000, 1000⟩
        = some r ∧
      calcLayout 3 r (some ⟨true, true, some ⟨fun _ => ⟨1001, 995⟩⟩⟩) ⟨1000, 1000⟩ = some r ∧
      ∀ other : ScrollViewLayoutHelper,
        other.vertBarWidth = (new 13 7).vertBarWidth →
        other.horzBarHeight = (new 13 7).horzBarHeight →
        calcLayout 3 other (some ⟨true, true, some ⟨fun _ => ⟨1001, 995⟩⟩⟩) ⟨1000, 1000⟩
          = some r :=
  calcLayout_idempotent 3 (by decide) (new 13 7)
    (some ⟨true, true, some ⟨fun _ => ⟨1001, 995⟩⟩⟩) ⟨1000, 1000⟩

end ScrollViewLayoutHelper

end bdn

/-! ## Theorems: UWP window core -/

namespace bdn

namespace winuwp

namespace WindowCore

/-- C8: a newly constructed core has valid caches, and for every core with
valid caches and every `UiLength`, `uiLengthToDips` gives 0 for the unit
none, the value for dip, the value times 11 for em, the value times the UI
provider's sem size for sem, and fails with `InvalidArgumentError` for every
other unit value; the caches stay valid. -/
theorem uiLengthToDips_spec (providerSemSizeDips : Int) :
    (∀ xamlWindow, CachesValid (new xamlWindow) providerSemSizeDips) ∧
    ∀ (self : WindowCore) (uiLength : UiLength), CachesValid self providerSemSizeDips →
      (self.uiLengthToDips providerSemSizeDips uiLength).1 =
        (match uiLength.unit with
         | UiLength.Unit.none => .ok 0
         | UiLength.Unit.dip => .ok uiLength.value
         | UiLength.Unit.em => .ok (uiLength.value * 11)
         | UiLength.Unit.sem => .ok (uiLength.value * providerSemSizeDips)
         | UiLength.Unit.other raw =>
           .error (Error.InvalidArgumentError
             ("Invalid UiLength unit passed to WindowCore::uiLengthToDips: " ++ toString raw))) ∧
      CachesValid (self.uiLengthToDips providerSemSizeDips uiLength).2 providerSemSizeDips := by
  refine ⟨fun _ => ⟨Or.inl rfl, Or.inl rfl⟩, ?_⟩
  intro self uiLength hvalid
  obtain ⟨unit, value⟩ := uiLength
  obtain ⟨hem, hsem⟩ := hvalid
  cases unit with
  | none => exact ⟨rfl, hem, hsem⟩
  | dip => exact ⟨rfl, hem, hsem⟩
  | em =>
    rcases hem with h | h <;>
      simp [uiLengthToDips, getEmSizeDips, CachesValid, h, hsem]
  | sem =>
    rcases hsem with h | h
    · simp [uiLengthToDips, getSemSizeDips, CachesValid, h, hem]
    · by_cases hp : providerSemSizeDips = -1
      · simp [uiLengthToDips, getSemSizeDips, CachesValid, h, hem, hp]
      · simp [uiLengthToDips, getSemSizeDips, CachesValid, h, hem, hp]
  | other raw => exact ⟨rfl, hem, hsem⟩

/-- Witness of C8: a new core, a sem size of 20 and the length 3 em. -/
theorem uiLengthToDips_spec_witness :
    ((new ⟨.ok ⟨5, 7, 800, 600⟩⟩).uiLengthToDips 20 ⟨UiLength.Unit.em, 3⟩).1 = .ok (3 * 11) ∧
    CachesValid ((new ⟨.ok ⟨5, 7, 800, 600⟩⟩).uiLengthToDips 20 ⟨UiLength.Unit.em, 3⟩).2 20 :=
  (uiLengthToDips_spec 20).2 (new ⟨.ok ⟨5, 7, 800, 600⟩⟩) ⟨UiLength.Unit.em, 3⟩
    ((uiLengthToDips_spec 20).1 ⟨.ok ⟨5, 7, 800, 600⟩⟩)

/-- C10, as stated, fails: when the native bounds are (5, 7, max double, 600)
the returned rectangle is (0, 0, 0, 600), which is not the native bounds with
the position set to zero. -/
theorem adjustAndSetBounds_max_width :
    (new ⟨.ok ⟨5, 7, doubleMax, 600⟩⟩).adjustAndSetBounds ⟨1, 2, 3, 4⟩ = .ok ⟨0, 0, 0, 600⟩ ∧
    (new ⟨.ok ⟨5, 7, doubleMax, 600⟩⟩).adjustAndSetBounds ⟨1, 2, 3, 4⟩ ≠
      .ok { ({ x := 5, y := 7, width := doubleMax, height := 600 } : Rect) with x := 0, y := 0 } := by
  decide

/-- C10, amended: `adjustAndSetBounds` and `adjustBounds` have the same
outcome for every request and every pair of rounding types, and when the
native bounds can be read the result is those bounds with x = 0 and y = 0 and
with a width or height equal to the largest double replaced by 0. -/
theorem adjustBounds_reports_current_bounds (self : WindowCore) (bounds requestedBounds : Rect)
    (positionRoundType sizeRoundType : RoundType) :
    self.adjustAndSetBounds bounds =
      self.adjustBounds requestedBounds positionRoundType sizeRoundType ∧
    ∀ b : Rect, self._pXamlWindow.Bounds = .ok b →
      self.adjustAndSetBounds bounds =
        .ok ⟨0, 0, if b.width = doubleMax then 0 else b.width,
                   if b.height = doubleMax then 0 else b.height⟩ := by
  refine ⟨rfl, ?_⟩
  intro b hb
  simp only [adjustAndSetBounds, _getBounds, hb]
  by_cases hw : b.width = doubleMax <;> by_cases hh : b.height = doubleMax <;> simp [hw, hh]

/-- Witness of C10, amended: native bounds (5, 7, 800, 600) are reported as
(0, 0, 800, 600). -/
theorem adjustBounds_reports_current_bounds_witness :
    (new ⟨.ok ⟨5, 7, 800, 600⟩⟩).adjustAndSetBounds ⟨1, 2, 3, 4⟩ =
      (new ⟨.ok ⟨5, 7, 800, 600⟩⟩).adjustBounds ⟨9, 9, 9, 9⟩ RoundType.up RoundType.down ∧
    (new ⟨.ok ⟨5, 7, 800, 600⟩⟩).adjustAndSetBounds ⟨1, 2, 3, 4⟩ = .ok ⟨0, 0, 800, 600⟩ :=
  ⟨(adjustBounds_reports_current_bounds (new ⟨.ok ⟨5, 7, 800, 600⟩⟩) ⟨1, 2, 3, 4⟩ ⟨9, 9, 9, 9⟩
      RoundType.up RoundType.down).1,
   (adjustBounds_reports_current_bounds (new ⟨.ok ⟨5, 7, 800, 600⟩⟩) ⟨1, 2, 3, 4⟩ ⟨9, 9, 9, 9⟩
      RoundType.up RoundType.down).2 ⟨5, 7, 800, 600⟩ rfl⟩

end WindowCore

end winuwp

/-! ## Theorems: web UI provider -/

namespace webems

namespace UiProvider

/-- C9: `createViewCore` dispatches on the type name alone.  With four
pairwise different core type names it constructs the container view, button,
text view or window core exactly when the name is the corresponding one, and
it fails, with `ViewCoreTypeNotSupportedError` carrying the name, if and only
if the name is none of the four. -/
theorem createViewCore_dispatch {V : Type} (names : CoreTypeNames) (hd : names.Distinct)
    (coreTypeName : String) (pView : V) :
    (coreTypeName = names.containerView ↔
      createViewCore names coreTypeName pView = .ok (IViewCore.ContainerViewCore pView)) ∧
    (coreTypeName = names.button ↔
      createViewCore names coreTypeName pView = .ok (IViewCore.ButtonCore pView)) ∧
    (coreTypeName = names.textView ↔
      createViewCore names coreTypeName pView = .ok (IViewCore.TextViewCore pView)) ∧
    (coreTypeName = names.window ↔
      createViewCore names coreTypeName pView = .ok (IViewCore.WindowCore pView)) ∧
    ((coreTypeName ≠ names.containerView ∧ coreTypeName ≠ names.button ∧
        coreTypeName ≠ names.textView ∧ coreTypeName ≠ names.window) ↔
      createViewCore names coreTypeName pView =
        .error (Error.ViewCoreTypeNotSupportedError coreTypeName)) ∧
    (∀ e, createViewCore names coreTypeName pView = .error e →
      e = Error.ViewCoreTypeNotSupportedError coreTypeName) := by
  obtain ⟨h1, h2, h3, h4, h5, h6⟩ := hd
  unfold createViewCore
  by_cases a : coreTypeName = names.containerView
  · subst a
    simp [h1, h2, h3]
  · by_cases b : coreTypeName = names.button
    · subst b
      simp [a, h4, h5]
    · by_cases c : coreTypeName = names.textView
      · subst c
        simp [a, b, h6]
      · by_cases d : coreTypeName = names.window
        · subst d
          simp [a, b, c]
        · simp [a, b, c, d]

/-- Witness of C9: four different names and the button name as the tag. -/
theorem createViewCore_dispatch_witness :
    createViewCore ⟨"bdn.ContainerView", "bdn.Button", "bdn.TextView", "bdn.Window"⟩
      "bdn.Button" (3 : Nat) = .ok (IViewCore.ButtonCore 3) :=
  ((createViewCore_dispatch ⟨"bdn.ContainerView", "bdn.Button", "bdn.TextView", "bdn.Window"⟩
    ⟨by decide, by decide, by decide, by decide, by decide, by decide⟩
    "bdn.Button" (3 : Nat)).2.1).mp rfl

end UiProvider

end webems

end bdn

/-! ## Theorems: UWP window core after teardown, deferred update, event forwarder -/

namespace bdn

namespace winuwp

namespace WindowCore

/-- With a disconnected window `_getBounds` gives the empty rectangle. -/
theorem getBounds_disconnected (self : WindowCore)
    (hdis : self._pXamlWindow.Bounds = .error PlatformException.DisconnectedException) :
    self._getBounds = .ok ⟨0, 0, 0, 0⟩ := by
  have h0 : (0 : Nat) ≠ doubleMax := by decide
  simp [_getBounds, hdis, h0]

/-- The deferred task always clears the flag. -/
theorem updateTask_clears_flag (self : WindowCore) :
    self.updateOuterPositionAndSizeTask.2._outerPositionAndSizeUpdateScheduled = false := by
  unfold updateOuterPositionAndSizeTask
  simp only
  split
  · rfl
  · split <;> rfl

/-- C11: when reading the native bounds raises the disconnected failure,
`adjustAndSetBounds(r)` and `adjustBounds(r, ..)` return `Rect(0, 0, 0, 0)`
for every `r` and all rounding types, and `getContentArea()` returns
`Rect(0, 0, 0, 0)`; none of them raises. -/
theorem bounds_queries_after_teardown (self : WindowCore)
    (hdis : self._pXamlWindow.Bounds = .error PlatformException.DisconnectedException)
    (bounds requestedBounds : Rect) (positionRoundType sizeRoundType : RoundType) :
    self.adjustAndSetBounds bounds = .ok ⟨0, 0, 0, 0⟩ ∧
    self.adjustBounds requestedBounds positionRoundType sizeRoundType = .ok ⟨0, 0, 0, 0⟩ ∧
    self.getContentArea = .ok ⟨0, 0, 0, 0⟩ := by
  have hb := getBounds_disconnected self hdis
  refine ⟨hb, hb, ?_⟩
  simp [getContentArea, _getContentSize, hb]

/-- Witness of C11: a core whose window is disconnected. -/
theorem bounds_queries_after_teardown_witness :
    (new ⟨.error PlatformException.DisconnectedException⟩).adjustAndSetBounds ⟨1, 2, 3, 4⟩
      = .ok ⟨0, 0, 0, 0⟩ ∧
    (new ⟨.error PlatformException.DisconnectedException⟩).adjustBounds ⟨5, 6, 7, 8⟩
      RoundType.nearest RoundType.up = .ok ⟨0, 0, 0, 0⟩ ∧
    (new ⟨.error PlatformException.DisconnectedException⟩).getContentArea = .ok ⟨0, 0, 0, 0⟩ :=
  bounds_queries_after_teardown (new ⟨.error PlatformException.DisconnectedException⟩) rfl
    ⟨1, 2, 3, 4⟩ ⟨5, 6, 7, 8⟩ RoundType.nearest RoundType.up

/-- C12 fails on the code: for a core whose native panel and window are
disconnected, `setVisible` raises for `false` and for `true` (the translated
disconnected failure) and leaves the core as it was, whereas `needLayout` on
the same core returns normally.  With a live panel and a disconnected window
`setVisible(true)` still raises, from `Activate`. -/
theorem setVisible_after_teardown_raises :
    (∀ visible : Bool,
      ({ new ⟨.error PlatformException.DisconnectedException⟩ with
          _pWindowPanel := { fault := some PlatformException.DisconnectedException } }
        : WindowCore).setVisible visible =
      (.error (Error.NativeError PlatformException.DisconnectedException),
       { new ⟨.error PlatformException.DisconnectedException⟩ with
          _pWindowPanel := { fault := some PlatformException.DisconnectedException } })) ∧
    (({ new ⟨.error PlatformException.DisconnectedException⟩ with
          _pWindowPanel := { fault := some PlatformException.DisconnectedException } }
        : WindowCore).needLayout).1 = .ok () ∧
    ((new ⟨.error PlatformException.DisconnectedException⟩).setVisible true).1 =
      .error (Error.NativeError PlatformException.DisconnectedException) := by
  refine ⟨?_, by decide, by decide⟩
  intro visible
  cases visible <;> decide

/-- C13: when the native panel raises the disconnected failure,
`needLayout()` and `needSizingInfoUpdate()` return normally and leave the
core exactly as it was. -/
theorem invalidate_after_teardown (self : WindowCore)
    (hdis : self._pWindowPanel.fault = some PlatformException.DisconnectedException) :
    self.needLayout = (.ok (), self) ∧ self.needSizingInfoUpdate = (.ok (), self) := by
  constructor
  · simp [needLayout, UwpPanelWithCustomLayout.InvalidateArrange, hdis]
  · simp [needSizingInfoUpdate, UwpPanelWithCustomLayout.InvalidateMeasure, hdis]

/-- Witness of C13: a core whose panel and window are disconnected. -/
theorem invalidate_after_teardown_witness :
    ({ new ⟨.error PlatformException.DisconnectedException⟩ with
        _pWindowPanel := { fault := some PlatformException.DisconnectedException } }
      : WindowCore).needLayout =
      (.ok (), { new ⟨.error PlatformException.DisconnectedException⟩ with
        _pWindowPanel := { fault := some PlatformException.DisconnectedException } }) ∧
    ({ new ⟨.error PlatformException.DisconnectedException⟩ with
        _pWindowPanel := { fault := some PlatformException.DisconnectedException } }
      : WindowCore).needSizingInfoUpdate =
      (.ok (), { new ⟨.error PlatformException.DisconnectedException⟩ with
        _pWindowPanel := { fault := some PlatformException.DisconnectedException } }) :=
  invalidate_after_teardown
    { new ⟨.error PlatformException.DisconnectedException⟩ with
      _pWindowPanel := { fault := some PlatformException.DisconnectedException } } rfl

/-- C14: `calcPreferredSize` never returns a size: for every core and every
available space, `Size::none()` included, it fails with `NotImplementedError`
and the message "Not implemented: WindowCore::calcPreferredSize". -/
theorem calcPreferredSize_not_implemented :
    (∀ (self : WindowCore) (availableSpace : AvailableSpace),
      self.calcPreferredSize availableSpace =
        .error (Error.NotImplementedError "Not implemented: WindowCore::calcPreferredSize") ∧
      ∀ size : Size, self.calcPreferredSize availableSpace ≠ .ok size) ∧
    ∀ self : WindowCore, self.calcPreferredSize Size.none =
      .error (Error.NotImplementedError "Not implemented: WindowCore::calcPreferredSize") := by
  have h : ∀ (self : WindowCore) (availableSpace : AvailableSpace),
      self.calcPreferredSize availableSpace =
        .error (Error.NotImplementedError "Not implemented: WindowCore::calcPreferredSize") := by
    intro self availableSpace
    simp only [calcPreferredSize, NotImplementedError.new]
    congr 2
  refine ⟨fun self availableSpace => ⟨h self availableSpace, ?_⟩, fun self => h self _⟩
  intro size hs
  rw [h] at hs
  cases hs

/-- C16: when the deferred update task runs and the weak reference resolves
to nothing, the task only clears the flag: it returns normally whatever
reading the native bounds would do, and no view is called.  When the outer
window exists and the current bounds are `b`, the task returns normally and
the window has received exactly one more call, `adjustAndSetBounds(b)`. -/
theorem update_task_effect (self : WindowCore) :
    (self._outerWindowWeak = Option.none →
      self.updateOuterPositionAndSizeTask =
        (.ok (), { self with _outerPositionAndSizeUpdateScheduled := false })) ∧
    (∀ (pView : Window) (b : Rect),
      self._outerWindowWeak = some pView → self._getBounds = .ok b →
      self.updateOuterPositionAndSizeTask =
        (.ok (), { self with
          _outerPositionAndSizeUpdateScheduled := false
          _outerWindowWeak := some
            { pView with adjustAndSetBoundsCalls := pView.adjustAndSetBoundsCalls ++ [b] } })) := by
  constructor
  · intro hgone
    simp [updateOuterPositionAndSizeTask, hgone]
  · intro pView b hview hb
    obtain ⟨xw, em, sem, panel, weak, flag, fwd⟩ := self
    simp only at hview
    subst hview
    have hb2 : _getBounds ⟨xw, em, sem, panel, some pView, false, fwd⟩ = .ok b := hb
    simp [updateOuterPositionAndSizeTask, hb2, Window.adjustAndSetBounds]

/-- Witness of C16: with the outer window gone the task returns normally
although reading the native bounds would raise; with the outer window present
and native bounds (5, 7, 800, 600) the window receives the single call
`adjustAndSetBounds(Rect(0, 0, 800, 600))`. -/
theorem update_task_effect_witness :
    ({ new ⟨.error (PlatformException.other 5)⟩ with
        _outerPositionAndSizeUpdateScheduled := true } : WindowCore).updateOuterPositionAndSizeTask
      = (.ok (), new ⟨.error (PlatformException.other 5)⟩) ∧
    ({ new ⟨.ok ⟨5, 7, 800, 600⟩⟩ with
        _outerWindowWeak := some {}
        _outerPositionAndSizeUpdateScheduled := true } : WindowCore).updateOuterPositionAndSizeTask
      = (.ok (), { new ⟨.ok ⟨5, 7, 800, 600⟩⟩ with
          _outerWindowWeak := some { adjustAndSetBoundsCalls := [⟨0, 0, 800, 600⟩] } }) :=
  ⟨(update_task_effect { new ⟨.error (PlatformException.other 5)⟩ with
        _outerPositionAndSizeUpdateScheduled := true }).1 rfl,
   (update_task_effect { new ⟨.ok ⟨5, 7, 800, 600⟩⟩ with
        _outerWindowWeak := some {}
        _outerPositionAndSizeUpdateScheduled := true }).2 {} ⟨0, 0, 800, 600⟩ rfl (by decide)⟩

/-- After `dispose` a callback leaves the core as it is. -/
theorem deliver_disposed (toPlatformExc : Error → PlatformException) (self : WindowCore)
    (hnull : self._pEventForwarder._pParentWeak = false) (event : NativeEvent) :
    deliver toPlatformExc self event = self := by
  cases event <;>
    simp [deliver, EventForwarder.windowSizeChanged,
      EventForwarder.windowPanelParentSizeChanged, hnull]

/-- C20: once the event forwarder has been disposed, `windowSizeChanged` and
`windowPanelParentSizeChanged` return without touching the core, and every
sequence of later callbacks leaves the core, the outer window's record of
`adjustAndSetBounds` calls included, as it was.  Before `dispose`, when the
outer window exists and the current bounds are `b`, `windowSizeChanged` makes
the one call `adjustAndSetBounds(b)` on it. -/
theorem callbacks_ignored_after_dispose (toPlatformExc : Error → PlatformException)
    (self : WindowCore) :
    EventForwarder.windowSizeChanged toPlatformExc self.disposeEventForwarder
      = (.ok (), self.disposeEventForwarder) ∧
    EventForwarder.windowPanelParentSizeChanged toPlatformExc self.disposeEventForwarder
      = (.ok (), self.disposeEventForwarder) ∧
    (∀ events : List NativeEvent,
      deliverAll toPlatformExc self.disposeEventForwarder events = self.disposeEventForwarder) ∧
    (∀ (pView : Window) (b : Rect),
      self._pEventForwarder._pParentWeak = true →
      self._outerWindowWeak = some pView → self._getBounds = .ok b →
      EventForwarder.windowSizeChanged toPlatformExc self =
        (.ok (), { self with
          _outerWindowWeak := some
            { pView with adjustAndSetBoundsCalls := pView.adjustAndSetBoundsCalls ++ [b] } })) := by
  refine ⟨?_, ?_, ?_, ?_⟩
  · simp [EventForwarder.windowSizeChanged, disposeEventForwarder, EventForwarder.dispose]
  · simp [EventForwarder.windowPanelParentSizeChanged, disposeEventForwarder,
      EventForwarder.dispose]
  · intro events
    induction events with
    | nil => rfl
    | cons e rest ih =>
      simp only [deliverAll, List.foldl_cons] at ih ⊢
      rw [deliver_disposed toPlatformExc self.disposeEventForwarder rfl e]
      exact ih
  · intro pView b hattached hview hb
    simp [EventForwarder.windowSizeChanged, hattached, _windowSizeChanged, hview, hb,
      Window.adjustAndSetBounds]

/-- Witness of C20: a live core with an outer window and native bounds
(5, 7, 800, 600) forwards `windowSizeChanged` as the call
`adjustAndSetBounds(Rect(0, 0, 800, 600))`; after `dispose` three further
callbacks change nothing. -/
theorem callbacks_ignored_after_dispose_witness :
    EventForwarder.windowSizeChanged (fun _ => PlatformException.other 1)
        ({ new ⟨.ok ⟨5, 7, 800, 600⟩⟩ with _outerWindowWeak := some {} } : WindowCore)
      = (.ok (), { new ⟨.ok ⟨5, 7, 800, 600⟩⟩ with
          _outerWindowWeak := some { adjustAndSetBoundsCalls := [⟨0, 0, 800, 600⟩] } }) ∧
    deliverAll (fun _ => PlatformException.other 1)
        ({ new ⟨.ok ⟨5, 7, 800, 600⟩⟩ with _outerWindowWeak := some {} }
          : WindowCore).disposeEventForwarder
        [NativeEvent.windowSizeChanged, NativeEvent.windowPanelParentSizeChanged,
         NativeEvent.windowSizeChanged]
      = ({ new ⟨.ok ⟨5, 7, 800, 600⟩⟩ with _outerWindowWeak := some {} }
          : WindowCore).disposeEventForwarder :=
  ⟨(callbacks_ignored_after_dispose (fun _ => PlatformException.other 1)
      { new ⟨.ok ⟨5, 7, 800, 600⟩⟩ with _outerWindowWeak := some {} }).2.2.2
      {} ⟨0, 0, 800, 600⟩ rfl rfl (by decide),
   (callbacks_ignored_after_dispose (fun _ => PlatformException.other 1)
      { new ⟨.ok ⟨5, 7, 800, 600⟩⟩ with _outerWindowWeak := some {} }).2.2.1
      [NativeEvent.windowSizeChanged, NativeEvent.windowPanelParentSizeChanged,
       NativeEvent.windowSizeChanged]⟩

end WindowCore

namespace MainThread

/-- One event keeps the coalescing invariant. -/
theorem step_coalesced (t : MainThread) (h : t.Coalesced) (e : Event) : (t.step e).Coalesced := by
  obtain ⟨hle, hiff⟩ := h
  cases e with
  | schedule =>
    unfold step _scheduleUpdateOuterPositionAndSizeProperty
    by_cases hflag : t.core._outerPositionAndSizeUpdateScheduled = true
    · simp only [hflag, if_true]
      exact ⟨hle, hiff⟩
    · have hne : t.pendingUpdates ≠ 1 := fun h1 => hflag (hiff.mpr h1)
      have h0 : t.pendingUpdates = 0 := by omega
      have hq : List.count Task.updateOuterPositionAndSize t.queue = 0 := h0
      simp [hflag, Coalesced, pendingUpdates, asyncCallFromMainThread, hq]
  | runNext =>
    unfold step runNext
    cases hq : t.queue with
    | nil =>
      simp only
      exact ⟨hle, hiff⟩
    | cons task rest =>
      cases task with
      | updateOuterPositionAndSize =>
        have hc : List.count Task.updateOuterPositionAndSize rest = 0 := by
          have := hle
          simp only [pendingUpdates, hq, List.count_cons_self] at this
          omega
        simp [Coalesced, pendingUpdates, hc, WindowCore.updateTask_clears_flag]
      | other id =>
        have hc : List.count Task.updateOuterPositionAndSize rest = t.pendingUpdates := by
          simp [pendingUpdates, hq]
        simp only [Coalesced, pendingUpdates, hc]
        exact ⟨hle, hiff⟩
  | postOther id =>
    have hc : List.count Task.updateOuterPositionAndSize
        (asyncCallFromMainThread t.queue (Task.other id)) = t.pendingUpdates := by
      simp [pendingUpdates, asyncCallFromMainThread]
    simp only [step, Coalesced, pendingUpdates, hc]
    exact ⟨hle, hiff⟩

/-- Every sequence of events keeps the coalescing invariant. -/
theorem run_coalesced (events : List Event) :
    ∀ t : MainThread, t.Coalesced → (t.run events).Coalesced := by
  induction events with
  | nil => intro t h; exact h
  | cons e rest ih =>
    intro t h
    exact ih (t.step e) (step_coalesced t h e)

/-- C15: starting from a state in which the flag is clear and no update task
is pending, after every sequence of schedule calls, task executions and
unrelated postings at most one position-and-size update task is pending and
the flag is set exactly when one is; a schedule call made while one is
pending changes nothing. -/
theorem update_tasks_coalesced (t : MainThread)
    (hflag : t.core._outerPositionAndSizeUpdateScheduled = false)
    (hnone : t.pendingUpdates = 0) (events : List Event) :
    (t.run events).pendingUpdates ≤ 1 ∧
    ((t.run events).core._outerPositionAndSizeUpdateScheduled = true ↔
      (t.run events).pendingUpdates = 1) ∧
    ((t.run events).pendingUpdates = 1 →
      (t.run events)._scheduleUpdateOuterPositionAndSizeProperty = t.run events) := by
  have h0 : t.Coalesced := by
    refine ⟨by omega, ?_⟩
    rw [hflag, hnone]
    simp
  obtain ⟨hle, hiff⟩ := run_coalesced events t h0
  refine ⟨hle, hiff, ?_⟩
  intro hp
  have hset := hiff.mpr hp
  simp [_scheduleUpdateOuterPositionAndSizeProperty, hset]

/-- Witness of C15: a new core and an empty queue; two schedule calls, an
unrelated posting, another schedule call, then the thread runs two tasks and
the core schedules again.  One update task is pending at the end. -/
theorem update_tasks_coalesced_witness :
    (run { core := WindowCore.new ⟨.ok ⟨5, 7, 800, 600⟩⟩, queue := [] }
        [Event.schedule, Event.schedule, Event.postOther 3, Event.schedule, Event.runNext,
         Event.runNext, Event.schedule]).queue = [Task.updateOuterPositionAndSize] ∧
    (run { core := WindowCore.new ⟨.ok ⟨5, 7, 800, 600⟩⟩, queue := [] }
        [Event.schedule, Event.schedule, Event.postOther 3, Event.schedule, Event.runNext,
         Event.runNext, Event.schedule]).pendingUpdates ≤ 1 :=
  ⟨by decide,
   (update_tasks_coalesced { core := WindowCore.new ⟨.ok ⟨5, 7, 800, 600⟩⟩, queue := [] }
      rfl rfl
      [Event.schedule, Event.schedule, Event.postOther 3, Event.schedule, Event.runNext,
       Event.runNext, Event.schedule]).1⟩

end MainThread

end winuwp

end bdn

/-! ## Theorems: StringData -/

namespace bdn

/-- The scan stops at the first zero element. -/
theorem scanToZero_first_zero (l : List Nat) :
    ∀ (p k : Nat), l[k]? = some 0 → (∀ i, i < k → l[i]? ≠ some 0) →
      scanToZero l p = some (p + k) := by
  induction l with
  | nil => intro p k hk _; simp at hk
  | cons x rest ih =>
    intro p k hk hbefore
    cases k with
    | zero =>
      have hx : x = 0 := by simpa using hk
      simp [scanToZero, hx]
    | succ k =>
      have hx : x ≠ 0 := by
        have := hbefore 0 (Nat.succ_pos k)
        simpa using this
      have hrest : rest[k]? = some 0 := by simpa using hk
      have hbefore2 : ∀ i, i < k → rest[i]? ≠ some 0 := by
        intro i hi
        have := hbefore (i + 1) (Nat.succ_lt_succ hi)
        simpa using this
      have := ih (p + 1) k hrest hbefore2
      simp only [scanToZero, hx, if_false]
      rw [this]
      congr 1
      omega

/-- C17: with the length `npos`, when the element `k` places after `p` is
zero and no element before it is, `getStringEndPtr` returns `p + k`, the
position of that zero; with any other length `n` it returns `p + n`, whatever
the elements are. -/
theorem getStringEndPtr_spec (mem : List Nat) (p : Nat) :
    (∀ k, mem[p + k]? = some 0 → (∀ i, i < k → mem[p + i]? ≠ some 0) →
      getStringEndPtr mem p npos = some (p + k)) ∧
    (∀ n, n ≠ npos → getStringEndPtr mem p n = some (p + n)) := by
  constructor
  · intro k hk hbefore
    simp only [getStringEndPtr, if_true]
    apply scanToZero_first_zero
    · simpa [List.getElem?_drop] using hk
    · intro i hi
      simpa [List.getElem?_drop] using hbefore i hi
  · intro n hn
    simp [getStringEndPtr, hn]

/-- Witness of C17: for the array "hello" with its terminator, the end
pointer is `p + 5`; with the length 4 it is `p + 4`, where the 'o' (111)
lies. -/
theorem getStringEndPtr_spec_witness :
    getStringEndPtr [104, 101, 108, 108, 111, 0] 0 npos = some (0 + 5) ∧
    getStringEndPtr [104, 101, 108, 108, 111, 0] 0 4 = some (0 + 4) ∧
    [104, 101, 108, 108, 111, 0][0 + 4]? = some 111 :=
  ⟨(getStringEndPtr_spec [104, 101, 108, 108, 111, 0] 0).1 5 (by decide) (by decide),
   (getStringEndPtr_spec [104, 101, 108, 108, 111, 0] 0).2 4 (by decide),
   by decide⟩

namespace StringData

/-- C18 fails on the code: a `StringData` built from a constant string or a
constant character pointer in its own encoding is not copied but decoded and
encoded again, for every codec.  With the UTF-8 codec the single byte FF,
which is not well-formed UTF-8, is stored as EF BF BD; the constructors that
take mutable iterators or pointers do copy it as it is. -/
theorem const_input_is_transcoded :
    (∀ (utf8Codec codec : Codec) (s : List Nat),
      (ofString utf8Codec codec s)._encodedString.elements = codec.encode (utf8Codec.decode s)) ∧
    (ofString Utf8.codec Utf8.codec [255])._encodedString.elements = [239, 191, 189] ∧
    (ofCString Utf8.codec Utf8.codec [255, 0] 0 npos).map (fun d => d._encodedString.elements)
      = some [239, 191, 189] ∧
    (ofCString Utf8.codec Utf8.codec [255, 0] 0 1).map (fun d => d._encodedString.elements)
      = some [239, 191, 189] ∧
    (ofEncodedIterators Utf8.codec [255])._encodedString.elements = [255] ∧
    (ofEncodedPointers Utf8.codec [255, 0] 0 1)._encodedString.elements = [255] := by
  refine ⟨fun _ _ _ => rfl, by decide, by decide, by decide, by decide, by decide⟩

/-- C19, as stated, fails: with input iterators the constructor first
reserves `charCount * 4` elements.  For the incorrect count `(size_t)-2` that
is `2^64 - 8`, above a `max_size()` of 2^63 - 1, and `length_error` is thrown
even by an allocator that supplies everything.  For the incorrect count 2^45
with a `max_size()` of 2^62 - 1 and an allocator that supplies at most 2^40
elements, `bad_alloc` is thrown.  Nothing is stored in either case, whereas
`StringData(beginIt, endIt)` stores the encoded character. -/
theorem ofCharsCount_huge_count :
    ofCharsCount Utf8.codec 9223372036854775807 (fun _ => true) IteratorCategory.input [104]
        (npos - 1)
      = .error StdException.length_error ∧
    ofCharsCount Utf8.codec 4611686018427387903 (fun n => decide (n ≤ 1099511627776))
        IteratorCategory.input [104] 35184372088832
      = .error StdException.bad_alloc ∧
    (ofChars Utf8.codec [104])._encodedString.elements = [104] := by
  decide

/-- C19, amended: for the forward category (and the categories above it)
with every count, and for the input category with the count `(size_t)-1`,
`StringData(beginIt, endIt, charCount)` is the object
`StringData(beginIt, endIt)`.  For the input category with any other count
the constructor first reserves `charCount * getMaxEncodedElementsPerCharacter()`
elements, computed in `size_t`: above `max_size()` it throws `length_error`;
otherwise, when the allocator does not supply the storage, it throws
`bad_alloc`; and when the reservation succeeds it stores the same encoded
elements as `StringData(beginIt, endIt)`. -/
theorem ofCharsCount_same_elements (codec : Codec) (max_size : Nat) (canAllocate : Nat → Bool)
    (category : IteratorCategory) (chars : List Nat) (charCount : Nat) :
    ((category ≠ IteratorCategory.input ∨ charCount = npos) →
      ofCharsCount codec max_size canAllocate category chars charCount
        = .ok (ofChars codec chars)) ∧
    (category = IteratorCategory.input → charCount ≠ npos →
      (max_size < reservationSize codec charCount →
        ofCharsCount codec max_size canAllocate category chars charCount
          = .error StdException.length_error) ∧
      (reservationSize codec charCount ≤ max_size → 0 < reservationSize codec charCount →
        canAllocate (reservationSize codec charCount) = false →
        ofCharsCount codec max_size canAllocate category chars charCount
          = .error StdException.bad_alloc) ∧
      (reservationSize codec charCount ≤ max_size →
        (reservationSize codec charCount = 0 ∨
          canAllocate (reservationSize codec charCount) = true) →
        ∃ d, ofCharsCount codec max_size canAllocate category chars charCount = .ok d ∧
          d._encodedString.elements = (ofChars codec chars)._encodedString.elements)) := by
  constructor
  · intro h
    cases category with
    | input =>
      rcases h with h | h
      · exact absurd rfl h
      · simp [ofCharsCount, ofCharsInput, h, ofChars]
    | forward => rfl
    | bidirectional => rfl
    | randomAccess => rfl
  · intro hcat hn
    subst hcat
    refine ⟨?_, ?_, ?_⟩
    · intro hbig
      simp [ofCharsCount, ofCharsInput, hn, EncodedString.reserve, hbig]
    · intro hfit hpos hno
      have hnot : ¬ max_size < reservationSize codec charCount := by omega
      have hne : reservationSize codec charCount ≠ 0 := by omega
      simp [ofCharsCount, ofCharsInput, hn, EncodedString.reserve, hnot, hne, hno]
    · intro hfit hok
      have hnot : ¬ max_size < reservationSize codec charCount := by omega
      have hres : EncodedString.reserve max_size canAllocate {} (reservationSize codec charCount)
          = .ok ⟨[], reservationSize codec charCount⟩ := by
        by_cases hzero : reservationSize codec charCount = 0
        · simp [EncodedString.reserve, hzero]
        · have hyes : canAllocate (reservationSize codec charCount) = true := by
            rcases hok with h | h
            · exact absurd h hzero
            · exact h
          simp [EncodedString.reserve, hnot, hzero, hyes]
      simp only [ofCharsCount, ofCharsInput, ne_eq, hn, not_false_eq_true, if_true, hres]
      split
      · exact ⟨_, rfl, rfl⟩
      · exact ⟨_, rfl, rfl⟩

/-- Witness of C19, amended: input iterators over the two characters 'h' and
U+00E9, a `max_size()` of 2^62 - 1 and an allocator that supplies at most
2^40 elements.  With the true count 2 and with the wrong count 100 the same
elements are stored as by the constructor without a count; with the wrong
count 2^45 the constructor throws `bad_alloc`. -/
theorem ofCharsCount_same_elements_witness :
    (∃ d, ofCharsCount Utf8.codec 4611686018427387903 (fun n => decide (n ≤ 1099511627776))
        IteratorCategory.input [104, 233] 2 = .ok d ∧
      d._encodedString.elements = (ofChars Utf8.codec [104, 233])._encodedString.elements) ∧
    (∃ d, ofCharsCount Utf8.codec 4611686018427387903 (fun n => decide (n ≤ 1099511627776))
        IteratorCategory.input [104, 233] 100 = .ok d ∧
      d._encodedString.elements = (ofChars Utf8.codec [104, 233])._encodedString.elements) ∧
    ofCharsCount Utf8.codec 4611686018427387903 (fun n => decide (n ≤ 1099511627776))
        IteratorCategory.input [104, 233] 35184372088832 = .error StdException.bad_alloc ∧
    ofCharsCount Utf8.codec 4611686018427387903 (fun n => decide (n ≤ 1099511627776))
        IteratorCategory.forward [104, 233] 35184372088832 = .ok (ofChars Utf8.codec [104, 233]) :=
  ⟨((ofCharsCount_same_elements Utf8.codec 4611686018427387903
      (fun n => decide (n ≤ 1099511627776)) IteratorCategory.input [104, 233] 2).2
      rfl (by decide)).2.2 (by decide) (Or.inr (by decide)),
   ((ofCharsCount_same_elements Utf8.codec 4611686018427387903
      (fun n => decide (n ≤ 1099511627776)) IteratorCategory.input [104, 233] 100).2
      rfl (by decide)).2.2 (by decide) (Or.inr (by decide)),
   ((ofCharsCount_same_elements Utf8.codec 4611686018427387903
      (fun n => decide (n ≤ 1099511627776)) IteratorCategory.input [104, 233]
      35184372088832).2 rfl (by decide)).2.1 (by decide) (by decide) (by decide),
   (ofCharsCount_same_elements Utf8.codec 4611686018427387903
      (fun n => decide (n ≤ 1099511627776)) IteratorCategory.forward [104, 233]
      35184372088832).1 (Or.inl (by decide))⟩

end StringData

end bdn

/-! ## Theorems: window layout, measure delegate, iterator arithmetic -/

namespace bdn

namespace winuwp

/-- Updating the sizing info of child views leaves the record of
`calcPreferredSize` calls as it is. -/
theorem foldl_doUpdateSizingInfo_calls (children : List Nat) :
    ∀ w : Window, (children.foldl Window.doUpdateSizingInfo w).calcPreferredSizeCalls
      = w.calcPreferredSizeCalls := by
  induction children with
  | nil => intro w; rfl
  | cons c rest ih =>
    intro w
    rw [List.foldl_cons, ih]
    rfl

namespace WindowCore

/-- C22: if the outer window no longer exists `layout()` returns normally
and changes nothing.  If it exists and the current bounds are `b`, `layout()`
returns normally and the window has received exactly one more call,
`defaultLayout(Rect(0, 0, b.width, b.height))`, with the rectangle that
`getContentArea()` returns. -/
theorem layout_calls_defaultLayout (self : WindowCore) :
    (self._outerWindowWeak = Option.none → self.layout = (.ok (), self)) ∧
    (∀ (pOuter : Window) (b : Rect),
      self._outerWindowWeak = some pOuter → self._getBounds = .ok b →
      self.getContentArea = .ok ⟨0, 0, b.width, b.height⟩ ∧
      self.layout =
        (.ok (), { self with
          _outerWindowWeak := some
            { pOuter with
              defaultLayoutCalls := pOuter.defaultLayoutCalls ++ [⟨0, 0, b.width, b.height⟩] } })) := by
  constructor
  · intro hgone
    simp [layout, hgone]
  · intro pOuter b hview hb
    constructor
    · simp [getContentArea, _getContentSize, hb]
    · simp [layout, hview, _getContentSize, hb, Window.defaultLayout]

/-- Witness of C22: with the outer window gone `layout()` returns normally
although reading the native bounds would raise; with the outer window present
and native bounds (5, 7, 800, 600) the window receives the single call
`defaultLayout(Rect(0, 0, 800, 600))`. -/
theorem layout_calls_defaultLayout_witness :
    (new ⟨.error (PlatformException.other 5)⟩).layout
      = (.ok (), new ⟨.error (PlatformException.other 5)⟩) ∧
    ({ new ⟨.ok ⟨5, 7, 800, 600⟩⟩ with _outerWindowWeak := some {} } : WindowCore).getContentArea
      = .ok ⟨0, 0, 800, 600⟩ ∧
    ({ new ⟨.ok ⟨5, 7, 800, 600⟩⟩ with _outerWindowWeak := some {} } : WindowCore).layout
      = (.ok (), { new ⟨.ok ⟨5, 7, 800, 600⟩⟩ with
          _outerWindowWeak := some { defaultLayoutCalls := [⟨0, 0, 800, 600⟩] } }) :=
  ⟨(layout_calls_defaultLayout (new ⟨.error (PlatformException.other 5)⟩)).1 rfl,
   (layout_calls_defaultLayout
      { new ⟨.ok ⟨5, 7, 800, 600⟩⟩ with _outerWindowWeak := some {} }).2
      {} ⟨0, 0, 800, 600⟩ rfl (by decide)⟩

/-- C21: if the window no longer exists `measureOverride` returns the native
size (0, 0) and calls nothing.  If it exists, the available space passed to
`Window::calcPreferredSize` has, on each axis, the native value when that
value is finite and the `Size::none()` component when it is not; the returned
native size is the converted result of that call, and the window has received
exactly one `calcPreferredSize` call. -/
theorem measureOverride_translates (calcPreferredSize : Window → AvailableSpace → Size)
    (sizeToUwpSize : Size → UwpSize) (self : WindowPanelLayoutDelegate)
    (winAvailableSize : UwpSize) :
    (self._windowWeak = Option.none →
      WindowPanelLayoutDelegate.measureOverride calcPreferredSize sizeToUwpSize self
        winAvailableSize = (⟨NativeFloat.finite 0, NativeFloat.finite 0⟩, self)) ∧
    (∀ pWindow : Window, self._windowWeak = some pWindow →
      ∃ (availableSpace : AvailableSpace) (updated : Window),
        (∀ v, winAvailableSize.Width = NativeFloat.finite v → availableSpace.width = some v) ∧
        (winAvailableSize.Width.isfinite = false → availableSpace.width = Size.none.width) ∧
        (∀ v, winAvailableSize.Height = NativeFloat.finite v → availableSpace.height = some v) ∧
        (winAvailableSize.Height.isfinite = false → availableSpace.height = Size.none.height) ∧
        updated = pWindow.childViews.foldl Window.doUpdateSizingInfo pWindow ∧
        WindowPanelLayoutDelegate.measureOverride calcPreferredSize sizeToUwpSize self
            winAvailableSize =
          (sizeToUwpSize (calcPreferredSize updated availableSpace),
           { self with
             _windowWeak := some
               { updated with
                 calcPreferredSizeCalls :=
                   pWindow.calcPreferredSizeCalls ++ [availableSpace] } })) := by
  constructor
  · intro hgone
    simp [WindowPanelLayoutDelegate.measureOverride, hgone]
  · intro pWindow hwin
    obtain ⟨W, H⟩ := winAvailableSize
    have hcalls := foldl_doUpdateSizingInfo_calls pWindow.childViews pWindow
    refine ⟨⟨match W with | NativeFloat.finite v => some v | _ => Option.none,
             match H with | NativeFloat.finite v => some v | _ => Option.none⟩,
            pWindow.childViews.foldl Window.doUpdateSizingInfo pWindow, ?_, ?_, ?_, ?_, rfl, ?_⟩
    · intro v hv
      simp only at hv
      subst hv
      rfl
    · intro hinf
      cases W <;> simp_all [NativeFloat.isfinite, Size.none]
    · intro v hv
      simp only at hv
      subst hv
      rfl
    · intro hinf
      cases H <;> simp_all [NativeFloat.isfinite, Size.none]
    · cases W <;> cases H <;>
        simp [WindowPanelLayoutDelegate.measureOverride, hwin,
          Window.recordCalcPreferredSize, hcalls, Size.none]

/-- Witness of C21: a window with two child views, a native available size
of (400, infinity), a `calcPreferredSize` that answers (offered width or 123,
offered height or 77) and an exact conversion.  The window is asked with
(400, none) and the native result is (400, 77); with the window gone the
result is (0, 0). -/
theorem measureOverride_translates_witness :
    WindowPanelLayoutDelegate.measureOverride
        (fun _ a => ⟨a.width.getD 123, a.height.getD 77⟩)
        (fun s => ⟨NativeFloat.finite s.width, NativeFloat.finite s.height⟩)
        {} ⟨NativeFloat.finite 400, NativeFloat.infinity⟩
      = (⟨NativeFloat.finite 0, NativeFloat.finite 0⟩, {}) ∧
    (∃ availableSpace : AvailableSpace,
      availableSpace.width = some 400 ∧ availableSpace.height = Option.none ∧
      WindowPanelLayoutDelegate.measureOverride
          (fun _ a => ⟨a.width.getD 123, a.height.getD 77⟩)
          (fun s => ⟨NativeFloat.finite s.width, NativeFloat.finite s.height⟩)
          { _windowWeak := some { childViews := [1, 2] } }
          ⟨NativeFloat.finite 400, NativeFloat.infinity⟩
        = (⟨NativeFloat.finite 400, NativeFloat.finite 77⟩,
           { _windowWeak := some
              { childViews := [1, 2]
                doUpdateSizingInfoCalls := [1, 2]
                calcPreferredSizeCalls := [availableSpace] } })) := by
  refine ⟨(measureOverride_translates _ _ {} _).1 rfl, ?_⟩
  obtain ⟨availableSpace, updated, hw, -, -, hh, hupdated, hresult⟩ :=
    (measureOverride_translates
      (fun _ a => ⟨a.width.getD 123, a.height.getD 77⟩)
      (fun s => ⟨NativeFloat.finite s.width, NativeFloat.finite s.height⟩)
      { _windowWeak := some { childViews := [1, 2] } }
      ⟨NativeFloat.finite 400, NativeFloat.infinity⟩).2 { childViews := [1, 2] } rfl
  have h1 : availableSpace.width = some 400 := hw 400 rfl
  have h2 : availableSpace.height = Option.none := hh rfl
  refine ⟨availableSpace, h1, h2, ?_⟩
  rw [hresult, hupdated]
  simp [h1, h2, Window.doUpdateSizingInfo]

end WindowCore

end winuwp

namespace StringData.Iterator

/-- The loop runs its body as often as the counter is below the bound. -/
theorem forLoop_eq_iterate {I : Type} (op : I → I) (val : Int) :
    ∀ (m : Nat) (i : Int) (it : I), (val - i).toNat = m → forLoop op val i it = op^[m] it := by
  intro m
  induction m with
  | zero =>
    intro i it hm
    rw [forLoop]
    have : ¬ i < val := by omega
    simp [this]
  | succ k ih =>
    intro i it hm
    rw [forLoop]
    have hlt : i < val := by omega
    simp only [hlt, if_true]
    rw [ih (i + 1) (op it) (by omega)]
    exact (Function.iterate_succ_apply op k it).symm

/-- C23: for an offset `n >= 0`, `it += n` and `it + n` apply `operator++`
exactly `n` times and `it -= n` and `it - n` apply `operator--` exactly `n`
times; for a negative offset all four leave the iterator where it is.  So
`it + (-k)` is `it` and `it - k` is `it` after `k` decrements, and the two
differ whenever `k` decrements move the iterator. -/
theorem offset_arithmetic {I : Type} (base : DecodingStringIterator I) (it : I) (n : Int) :
    (0 ≤ n →
      plusAssign base it n = base.increment^[n.toNat] it ∧
      plus base it n = base.increment^[n.toNat] it ∧
      minusAssign base it n = base.decrement^[n.toNat] it ∧
      minus base it n = base.decrement^[n.toNat] it) ∧
    (n < 0 →
      plusAssign base it n = it ∧ plus base it n = it ∧
      minusAssign base it n = it ∧ minus base it n = it) ∧
    (∀ k : Nat, 0 < k →
      plus base it (-(k : Int)) = it ∧ minus base it (k : Int) = base.decrement^[k] it ∧
      (base.decrement^[k] it ≠ it → plus base it (-(k : Int)) ≠ minus base it (k : Int))) := by
  refine ⟨?_, ?_, ?_⟩
  · intro _
    have hi := forLoop_eq_iterate base.increment n n.toNat 0 it (by simp)
    have hd := forLoop_eq_iterate base.decrement n n.toNat 0 it (by simp)
    exact ⟨hi, hi, hd, hd⟩
  · intro hneg
    have hz : (n - 0).toNat = 0 := by omega
    have hi := forLoop_eq_iterate base.increment n 0 0 it hz
    have hd := forLoop_eq_iterate base.decrement n 0 0 it hz
    exact ⟨hi, hi, hd, hd⟩
  · intro k hk
    have hz : (-(k : Int) - 0).toNat = 0 := by omega
    have hp : plus base it (-(k : Int)) = it :=
      forLoop_eq_iterate base.increment (-(k : Int)) 0 0 it hz
    have hm : minus base it (k : Int) = base.decrement^[k] it :=
      forLoop_eq_iterate base.decrement (k : Int) k 0 it (by simp)
    refine ⟨hp, hm, ?_⟩
    intro hmoves heq
    rw [hp, hm] at heq
    exact hmoves heq.symm

/-- Witness of C23: iterators are positions, `operator++` adds one and
`operator--` subtracts one.  From position 5, `+ 3` gives 8 and `- 3` gives 2;
`+ (-2)` and `- (-2)` give 5; and `5 + (-2)` differs from `5 - 2`. -/
theorem offset_arithmetic_witness :
    plus (I := Int) ⟨fun i => i + 1, fun i => i - 1⟩ 5 3 = 8 ∧
    minus (I := Int) ⟨fun i => i + 1, fun i => i - 1⟩ 5 3 = 2 ∧
    plus (I := Int) ⟨fun i => i + 1, fun i => i - 1⟩ 5 (-2) = 5 ∧
    minus (I := Int) ⟨fun i => i + 1, fun i => i - 1⟩ 5 (-2) = 5 ∧
    plus (I := Int) ⟨fun i => i + 1, fun i => i - 1⟩ 5 (-((2 : Nat) : Int)) ≠
      minus (I := Int) ⟨fun i => i + 1, fun i => i - 1⟩ 5 ((2 : Nat) : Int) :=
  ⟨((offset_arithmetic (I := Int) ⟨fun i => i + 1, fun i => i - 1⟩ 5 3).1 (by decide)).2.1,
   ((offset_arithmetic (I := Int) ⟨fun i => i + 1, fun i => i - 1⟩ 5 3).1 (by decide)).2.2.2,
   ((offset_arithmetic (I := Int) ⟨fun i => i + 1, fun i => i - 1⟩ 5 (-2)).2.1 (by decide)).2.1,
   ((offset_arithmetic (I := Int) ⟨fun i => i + 1, fun i => i - 1⟩ 5 (-2)).2.1
      (by decide)).2.2.2,
   ((offset_arithmetic (I := Int) ⟨fun i => i + 1, fun i => i - 1⟩ 5 0).2.2 2 (by decide)).2.2
      (by decide)⟩

end StringData.Iterator

end bdn
